import Mathlib

/-!
# CloudyCraft `Main_Win32.cpp`: frame orchestration and subsystem lifecycle

A shallow embedding of `Game Code/CloudyCraft/Code/Game/Main_Win32.cpp`.

* Global variables of the translation unit are the fields of `World`.
* Calls into code outside the translation unit (engine subsystems, Win32) are
  recorded, in program order, in `World.trace`.
* What the outside world returns (clock samples, queued window messages, the
  handles created by Win32) is read from an `Env`.
* Calls into the engine and into Win32 are taken not to write the globals of this
  translation unit; the window procedure is entered only through `DispatchMessage`.
* A finite `float` / `double` is the rational it denotes. The `double` subtraction and the
  `double → float` narrowing of `Update` round to nearest, ties to even, as IEEE 754
  prescribes (`roundToFormat`), with overflow to an infinity; the two zeros are one value.
  The clock returns finite doubles, so no NaN arises.
* `WPARAM` is an unsigned machine word, carried as a `Nat`; the narrowing cast
  `(unsigned char)wParam` is `wParam % 256`.
-/

namespace CloudyCraft

/-! ## Constants (lines 25-33) -/

def OFFSET_FROM_WINDOWS_DESKTOP : Int := 50
def WINDOW_PHYSICAL_WIDTH : Int := 1600
def WINDOW_PHYSICAL_HEIGHT : Int := 900
def VIEW_LEFT : ℚ := 0
def VIEW_RIGHT : ℚ := 1600
def VIEW_BOTTOM : ℚ := 0

/-- Line 31: `VIEW_RIGHT * float(WINDOW_PHYSICAL_HEIGHT) / float(WINDOW_PHYSICAL_WIDTH)`.
Every intermediate value (1600, 900, 1440000) is an integer below `2^24`, so the
binary32 computation is exact and agrees with the rational one. -/
def VIEW_TOP : ℚ :=
  VIEW_RIGHT * (WINDOW_PHYSICAL_HEIGHT : ℚ) / (WINDOW_PHYSICAL_WIDTH : ℚ)

/-- The engine's two-float vector (`Engine/Math/Vector2.hpp`), as a pair of coordinates. -/
structure Vector2 where
  x : ℚ
  y : ℚ
  deriving DecidableEq, Repr

def BOTTOM_LEFT : Vector2 := Vector2.mk VIEW_LEFT VIEW_BOTTOM
def TOP_RIGHT : Vector2 := Vector2.mk VIEW_RIGHT VIEW_TOP

/-! ## IEEE 754 binary floating point -/

/-- A binary interchange format: the precision of the significand in bits (hidden bit
included) and the largest exponent; the smallest normal exponent is `1 - emax`. -/
structure FloatFormat where
  precision : Nat
  emax : Int

/-- The format of `float`. -/
def binary32 : FloatFormat := FloatFormat.mk 24 127

/-- The format of `double`. -/
def binary64 : FloatFormat := FloatFormat.mk 53 1023

/-- A `float` or `double` that is not a NaN: a finite value, given by the rational it denotes
(the two zeros are one value), or an infinity. -/
inductive FloatValue where
  | finite (q : ℚ)
  | infinite (negative : Bool)
  deriving DecidableEq, Repr

/-- The integer nearest to `x`, the even one of the two when `x` lies half-way. -/
def roundHalfEven (x : ℚ) : Int :=
  let f : Int := ⌊x⌋
  let r : ℚ := x - f
  if r < 1 / 2 then f
  else if 1 / 2 < r then f + 1
  else if f % 2 = 0 then f
  else f + 1

/-- Rounding of a real value to a format, to nearest, ties to even. The exponent of `x` is
`⌊log₂ |x|⌋`, raised to the smallest normal exponent for subnormal results; the spacing of the
format's values around `x` is `2 ^ (exponent - (precision - 1))`; `|x|` is rounded to a multiple
of that spacing; a result that reaches `2 ^ (emax + 1)` overflows to the infinity of the sign of
`x`. -/
def roundToFormat (F : FloatFormat) (x : ℚ) : FloatValue :=
  if x = 0 then FloatValue.finite 0
  else
    let e : Int := max (Int.log 2 |x|) (1 - F.emax)
    let quantum : ℚ := (2 : ℚ) ^ (e - ((F.precision : Int) - 1))
    let y : ℚ := (roundHalfEven (|x| / quantum) : ℚ) * quantum
    if (2 : ℚ) ^ (F.emax + 1) ≤ y then FloatValue.infinite (decide (x < 0))
    else FloatValue.finite (if x < 0 then -y else y)

/-- The C++ expression `a - b` on two finite `double`s. -/
def doubleSub (a b : ℚ) : FloatValue := roundToFormat binary64 (a - b)

/-- The C++ conversion `(float)x` of a `double`. -/
def doubleToFloat : FloatValue → FloatValue
  | FloatValue.finite q => roundToFormat binary32 q
  | FloatValue.infinite negative => FloatValue.infinite negative

/-- The comparison `0 <= x`. -/
def FloatValue.nonneg : FloatValue → Prop
  | FloatValue.finite q => 0 ≤ q
  | FloatValue.infinite negative => negative = false

/-! ## Win32 message codes (values from the Windows SDK header `winuser.h`) -/

def WM_DESTROY : Nat := 0x0002
def WM_CLOSE : Nat := 0x0010
def WM_QUIT : Nat := 0x0012
def WM_KEYDOWN : Nat := 0x0100
def WM_KEYUP : Nat := 0x0101
def WM_CHAR : Nat := 0x0102
def WM_LBUTTONDOWN : Nat := 0x0201
def WM_LBUTTONUP : Nat := 0x0202
def WM_RBUTTONDOWN : Nat := 0x0204
def WM_RBUTTONUP : Nat := 0x0205
def WM_MBUTTONDOWN : Nat := 0x0207
def WM_MBUTTONUP : Nat := 0x0208
def WM_MOUSEWHEEL : Nat := 0x020A
def VK_ESCAPE : Nat := 0x1B

/-- The SDK's `GET_WHEEL_DELTA_WPARAM(wParam)`, that is `(short)HIWORD(wParam)`: bits 16..31 of
the word, read as a signed 16-bit integer. -/
def GET_WHEEL_DELTA_WPARAM (wParam : Nat) : Int :=
  let hi := (wParam / 65536) % 65536
  if hi < 32768 then (hi : Int) else (hi : Int) - 65536

/-- A window message as the window procedure receives it. -/
structure Msg where
  wmMessageCode : Nat
  wParam : Nat
  lParam : Int
  deriving DecidableEq, Repr

/-! ## Names of the things the translation unit manipulates -/

/-- The seven singleton subsystems (`X::instance`). -/
inductive Subsystem where
  | Renderer
  | AudioSystem
  | InputSystem
  | Console
  | MemoryOutputWindow
  | TheApp
  | TheGame
  deriving DecidableEq, Repr

/-- The global profiling identifiers of lines 45-47. -/
inductive ProfilingID where
  | g_frameTimeProfiling
  | g_updateProfiling
  | g_renderProfiling
  deriving DecidableEq, Repr

/-- The two global critical sections of lines 42-43. -/
inductive CriticalSection where
  | g_chunkListsCriticalSection
  | g_diskIOCriticalSection
  deriving DecidableEq, Repr

/-- Constructor arguments passed by `new` in `Initialize`. -/
inductive CtorArgs where
  | none
  | windowHandle (hWnd : Nat)
  | viewSize (right top : ℚ)
  deriving DecidableEq, Repr

/-- Win32 calls made by `CreateOpenGLWindow`, in the vocabulary of lines 113-179. -/
inductive Win32Call where
  | GetModuleHandle
  | RegisterClassEx
  | GetDesktopWindow
  | GetClientRect
  | AdjustWindowRectEx
  | GetACP
  | MultiByteToWideChar
  | CreateWindowEx
  | ShowWindow
  | SetForegroundWindow
  | SetFocus
  | GetDC
  | LoadCursor
  | SetCursor
  | ChoosePixelFormat
  | SetPixelFormat
  | wglCreateContext
  | wglMakeCurrent
  deriving DecidableEq, Repr

/-- One externally visible call made by the translation unit. -/
inductive Call where
  | MemoryAnalyticsStartup
  | MemoryAnalyticsShutdown
  | SetProcessDPIAware
  | Win32 (c : Win32Call)
  | InitializeCriticalSection (cs : CriticalSection)
  | DeleteCriticalSection (cs : CriticalSection)
  | New (s : Subsystem) (args : CtorArgs)
  | Delete (s : Subsystem)
  | SetNull (s : Subsystem)
  | RegisterProfilingChannel (into : ProfilingID)
  | StartTiming (id : ProfilingID)
  | EndTiming (id : ProfilingID)
  | AdvanceFrameNumber
  | PeekMessage
  | TranslateMessage (m : Msg)
  | DispatchMessage (m : Msg)
  | GetCurrentTimeSeconds
  | Update (s : Subsystem) (deltaSeconds : FloatValue)
  | Render (s : Subsystem)
  | SwapBuffers
  | SetOrtho (bottomLeft topRight : Vector2)
  | EnableAlphaBlending
  | DrawText2D (position : Vector2) (text : String)
  | CleanUpTextureRegistry
  | CleanUpBitmapFontRegistry
  | CleanUpProfilingUtils
  deriving DecidableEq, Repr

/-! ## The input-state object -/

/-- Modelled from the spec: class `InputSystem` (`Engine/Input/InputSystem.hpp`) is not part of
the translation unit. Its state is the held flag of every key code and logical mouse button, the
last typed character, the wheel delta and the frame counter; the mutators below write exactly
the one field the spec names for them. -/
structure InputSystem where
  isKeyDown : Nat → Bool
  isMouseDown : Nat → Bool
  lastPressedChar : Nat
  mouseWheel : Int
  frameNumber : Nat

/-- Modelled from the spec: "record the most recently typed character". -/
def InputSystem.SetLastPressedChar (i : InputSystem) (c : Nat) : InputSystem :=
  { i with lastPressedChar := c }

/-- Modelled from the spec: "mark that key code as held / released". -/
def InputSystem.SetKeyDownStatus (i : InputSystem) (key : Nat) (isDown : Bool) : InputSystem :=
  { i with isKeyDown := fun k => if k = key then isDown else i.isKeyDown k }

/-- Modelled from the spec: "mark the corresponding logical button index as held / released". -/
def InputSystem.SetMouseDownStatus (i : InputSystem) (button : Nat) (isDown : Bool) :
    InputSystem :=
  { i with isMouseDown := fun b => if b = button then isDown else i.isMouseDown b }

/-- Modelled from the spec: "record the signed wheel delta for the current frame". -/
def InputSystem.SetMouseWheelStatus (i : InputSystem) (zDelta : Int) : InputSystem :=
  { i with mouseWheel := zDelta }

/-- Modelled from the spec: "advance a monotonically increasing frame counter". -/
def InputSystem.AdvanceFrameNumber (i : InputSystem) : InputSystem :=
  { i with frameNumber := i.frameNumber + 1 }

/-- An input state with nothing held, used for concrete evaluations. -/
def InputSystem.idle : InputSystem :=
  { isKeyDown := fun _ => false
    isMouseDown := fun _ => false
    lastPressedChar := 0
    mouseWheel := 0
    frameNumber := 0 }

/-! ## Program state and environment -/

/-- The global state of the translation unit. -/
structure World where
  /-- Line 35. -/
  g_isQuitting : Bool
  /-- Line 36 (`0` is `nullptr`). -/
  g_hWnd : Nat
  /-- Line 37. -/
  g_displayDeviceContext : Nat
  /-- Line 38. -/
  g_openGLRenderingContext : Nat
  /-- Whether `X::instance` is non-null. -/
  hasInstance : Subsystem → Bool
  /-- State of `*InputSystem::instance`. -/
  input : InputSystem
  /-- The function-local static of line 202; `none` until its initialiser has run. -/
  s_timeLastFrameStarted : Option ℚ
  /-- How many times `GetCurrentTimeSeconds` has been called. -/
  clockReads : Nat
  /-- How many times `RunMessagePump` has been called. -/
  pumpRuns : Nat
  /-- Calls made so far, oldest first. -/
  trace : List Call

/-- What the outside world supplies. -/
structure Env where
  /-- Handle returned by `CreateWindowEx`. -/
  hWnd : Nat
  /-- Handle returned by `GetDC`. -/
  displayDeviceContext : Nat
  /-- Handle returned by `wglCreateContext`. -/
  openGLRenderingContext : Nat
  /-- State of a freshly constructed `InputSystem`. -/
  freshInput : InputSystem
  /-- Value of the finite `double` returned by the `n`-th call (from 0) of
  `GetCurrentTimeSeconds`. -/
  clock : Nat → ℚ
  /-- Messages `PeekMessage` hands out during the `n`-th call (from 0) of `RunMessagePump`,
  those posted by `TranslateMessage` included. -/
  pending : Nat → List Msg

/-- Append one call to the trace. -/
def log (c : Call) (w : World) : World :=
  { w with trace := w.trace ++ [c] }

/-- Append several calls to the trace. -/
def logAll (cs : List Call) (w : World) : World :=
  { w with trace := w.trace ++ cs }

/-- State at process start: globals as initialised at lines 35-38, no subsystem constructed. -/
def World.initial (input : InputSystem) : World :=
  { g_isQuitting := false
    g_hWnd := 0
    g_displayDeviceContext := 0
    g_openGLRenderingContext := 0
    hasInstance := fun _ => false
    input := input
    s_timeLastFrameStarted := none
    clockReads := 0
    pumpRuns := 0
    trace := [] }

/-! ## `WindowsMessageHandlingProcedure` (lines 51-110) -/

/-- What the window procedure returns: literal `0`, or whatever `DefWindowProc` returns for the
message it was forwarded. -/
inductive LResult where
  | zero
  | DefWindowProc (m : Msg)
  deriving DecidableEq, Repr

/-- Lines 51-110. -/
def WindowsMessageHandlingProcedure (w : World) (m : Msg) : World × LResult :=
  let asKey : Nat := m.wParam % 256
  if m.wmMessageCode = WM_CLOSE ∨ m.wmMessageCode = WM_DESTROY ∨ m.wmMessageCode = WM_QUIT then
    ({ w with g_isQuitting := true }, LResult.zero)
  else if m.wmMessageCode = WM_CHAR then
    ({ w with input := w.input.SetLastPressedChar asKey }, LResult.DefWindowProc m)
  else if m.wmMessageCode = WM_KEYDOWN then
    let w1 : World := { w with input := w.input.SetKeyDownStatus asKey true }
    if asKey = VK_ESCAPE then
      ({ w1 with g_isQuitting := true }, LResult.zero)
    else
      (w1, LResult.DefWindowProc m)
  else if m.wmMessageCode = WM_KEYUP then
    ({ w with input := w.input.SetKeyDownStatus asKey false }, LResult.DefWindowProc m)
  else if m.wmMessageCode = WM_LBUTTONDOWN then
    ({ w with input := w.input.SetMouseDownStatus 0 true }, LResult.DefWindowProc m)
  else if m.wmMessageCode = WM_RBUTTONDOWN then
    ({ w with input := w.input.SetMouseDownStatus 1 true }, LResult.DefWindowProc m)
  else if m.wmMessageCode = WM_MBUTTONDOWN then
    ({ w with input := w.input.SetMouseDownStatus 2 true }, LResult.DefWindowProc m)
  else if m.wmMessageCode = WM_LBUTTONUP then
    ({ w with input := w.input.SetMouseDownStatus 0 false }, LResult.DefWindowProc m)
  else if m.wmMessageCode = WM_RBUTTONUP then
    ({ w with input := w.input.SetMouseDownStatus 1 false }, LResult.DefWindowProc m)
  else if m.wmMessageCode = WM_MBUTTONUP then
    ({ w with input := w.input.SetMouseDownStatus 2 false }, LResult.DefWindowProc m)
  else if m.wmMessageCode = WM_MOUSEWHEEL then
    let zDelta : Int := GET_WHEEL_DELTA_WPARAM m.wParam
    ({ w with input := w.input.SetMouseWheelStatus zDelta }, LResult.DefWindowProc m)
  else
    (w, LResult.DefWindowProc m)

/-- The window procedure applied to a finite sequence of events, in order. -/
def handleAll (w : World) (ms : List Msg) : World :=
  ms.foldl (fun acc m => (WindowsMessageHandlingProcedure acc m).1) w

/-- An event that raises the quit flag, as the specification words it: a close, destroy or quit
event, or a key-down event whose key code is the cancel key. -/
def isQuitEventAsWritten (m : Msg) : Prop :=
  m.wmMessageCode = WM_CLOSE ∨ m.wmMessageCode = WM_DESTROY ∨ m.wmMessageCode = WM_QUIT ∨
    (m.wmMessageCode = WM_KEYDOWN ∧ m.wParam = VK_ESCAPE)

/-- An event that raises the quit flag, as the code decides it: the key code of a key-down
event is compared after narrowing to its low byte. -/
def isQuitEvent (m : Msg) : Prop :=
  m.wmMessageCode = WM_CLOSE ∨ m.wmMessageCode = WM_DESTROY ∨ m.wmMessageCode = WM_QUIT ∨
    (m.wmMessageCode = WM_KEYDOWN ∧ m.wParam % 256 = VK_ESCAPE)

instance (m : Msg) : Decidable (isQuitEventAsWritten m) := by
  unfold isQuitEventAsWritten; infer_instance

instance (m : Msg) : Decidable (isQuitEvent m) := by
  unfold isQuitEvent; infer_instance

/-! ## `CreateOpenGLWindow` (lines 113-179) -/

/-- The Win32 calls of `CreateOpenGLWindow`, in program order. -/
def createOpenGLWindowCalls : List Call :=
  [ Call.Win32 Win32Call.GetModuleHandle,
    Call.Win32 Win32Call.RegisterClassEx,
    Call.Win32 Win32Call.GetDesktopWindow,
    Call.Win32 Win32Call.GetClientRect,
    Call.Win32 Win32Call.AdjustWindowRectEx,
    Call.Win32 Win32Call.GetACP,
    Call.Win32 Win32Call.MultiByteToWideChar,
    Call.Win32 Win32Call.CreateWindowEx,
    Call.Win32 Win32Call.ShowWindow,
    Call.Win32 Win32Call.SetForegroundWindow,
    Call.Win32 Win32Call.SetFocus,
    Call.Win32 Win32Call.GetDC,
    Call.Win32 Win32Call.LoadCursor,
    Call.Win32 Win32Call.SetCursor,
    Call.Win32 Win32Call.ChoosePixelFormat,
    Call.Win32 Win32Call.SetPixelFormat,
    Call.Win32 Win32Call.wglCreateContext,
    Call.Win32 Win32Call.wglMakeCurrent ]

/-- Lines 113-179: the window, its device context and its OpenGL context are created and
stored in the three globals. -/
def CreateOpenGLWindow (env : Env) (w : World) : World :=
  logAll createOpenGLWindowCalls
    { w with
      g_hWnd := env.hWnd
      g_displayDeviceContext := env.displayDeviceContext
      g_openGLRenderingContext := env.openGLRenderingContext }

/-! ## `RunMessagePump` (lines 182-196) -/

/-- The `for (;;)` of lines 185-195 over the messages `PeekMessage` will hand out: each one is
removed, translated and dispatched to the window procedure; the loop breaks at the first
`PeekMessage` that finds the queue empty. -/
def pumpLoop : List Msg → World → World
  | [], w => log Call.PeekMessage w
  | m :: rest, w =>
    let w1 := log Call.PeekMessage w
    let w2 := log (Call.TranslateMessage m) w1
    let w3 := log (Call.DispatchMessage m) w2
    pumpLoop rest (WindowsMessageHandlingProcedure w3 m).1

/-- Lines 182-196. -/
def RunMessagePump (env : Env) (w : World) : World :=
  pumpLoop (env.pending w.pumpRuns) { w with pumpRuns := w.pumpRuns + 1 }

/-! ## `Update`, `Render`, `RunFrame` (lines 199-235) -/

/-- The engine's `GetCurrentTimeSeconds()`: the next clock sample. -/
def GetCurrentTimeSeconds (env : Env) (w : World) : ℚ × World :=
  (env.clock w.clockReads, log Call.GetCurrentTimeSeconds { w with clockReads := w.clockReads + 1 })

/-- Line 202: `static double s_timeLastFrameStarted = GetCurrentTimeSeconds();`. The initialiser
runs the first time control passes the declaration and never again. Returns the value the
variable holds afterwards. -/
def staticTimeLastFrameStarted (env : Env) (w : World) : ℚ × World :=
  match w.s_timeLastFrameStarted with
  | some t => (t, w)
  | none =>
    let r := GetCurrentTimeSeconds env w
    (r.1, { r.2 with s_timeLastFrameStarted := some r.1 })

/-- Lines 199-213. -/
def Update (env : Env) (w : World) : World :=
  let w1 := log (Call.StartTiming ProfilingID.g_updateProfiling) w
  let r2 := staticTimeLastFrameStarted env w1
  let r3 := GetCurrentTimeSeconds env r2.2
  let timeNow : ℚ := r3.1
  let deltaSeconds : FloatValue := doubleToFloat (doubleSub timeNow r2.1)
  let w4 : World := { r3.2 with s_timeLastFrameStarted := some timeNow }
  let w5 := log (Call.Update Subsystem.InputSystem deltaSeconds) w4
  let w6 := log (Call.Update Subsystem.AudioSystem deltaSeconds) w5
  let w7 := log (Call.Update Subsystem.Console deltaSeconds) w6
  let w8 := log (Call.Update Subsystem.MemoryOutputWindow deltaSeconds) w7
  let w9 := log (Call.Update Subsystem.TheGame deltaSeconds) w8
  log (Call.EndTiming ProfilingID.g_updateProfiling) w9

/-- Lines 216-224. -/
def Render (w : World) : World :=
  let w1 := log (Call.StartTiming ProfilingID.g_renderProfiling) w
  let w2 := log (Call.Render Subsystem.TheGame) w1
  let w3 := log (Call.Render Subsystem.MemoryOutputWindow) w2
  let w4 := log (Call.Render Subsystem.Console) w3
  let w5 := log Call.SwapBuffers w4
  log (Call.EndTiming ProfilingID.g_renderProfiling) w5

/-- Lines 227-235. -/
def RunFrame (env : Env) (w : World) : World :=
  let w1 := log Call.AdvanceFrameNumber { w with input := w.input.AdvanceFrameNumber }
  let w2 := log (Call.StartTiming ProfilingID.g_frameTimeProfiling) w1
  let w3 := RunMessagePump env w2
  let w4 := Update env w3
  let w5 := Render w4
  log (Call.EndTiming ProfilingID.g_frameTimeProfiling) w5

/-! ## `Initialize`, `EngineCleanup`, `Shutdown` (lines 238-292) -/

/-- The statement `X::instance = new X(args);`. -/
def newInstance (s : Subsystem) (args : CtorArgs) (w : World) : World :=
  log (Call.New s args)
    { w with hasInstance := fun t => if t = s then true else w.hasInstance t }

/-- The statement pair `delete X::instance; X::instance = nullptr;`. -/
def deleteInstance (s : Subsystem) (w : World) : World :=
  let w1 := log (Call.Delete s) w
  log (Call.SetNull s)
    { w1 with hasInstance := fun t => if t = s then false else w1.hasInstance t }

/-- Lines 238-254. -/
def Initialize (env : Env) (w : World) : World :=
  let w1 := log Call.SetProcessDPIAware w
  let w2 := CreateOpenGLWindow env w1
  let w3 := log (Call.InitializeCriticalSection CriticalSection.g_chunkListsCriticalSection) w2
  let w4 := log (Call.InitializeCriticalSection CriticalSection.g_diskIOCriticalSection) w3
  let w5 := newInstance Subsystem.Renderer CtorArgs.none w4
  let w6 := newInstance Subsystem.AudioSystem CtorArgs.none w5
  let w7 : World :=
    { newInstance Subsystem.InputSystem (CtorArgs.windowHandle w6.g_hWnd) w6 with
      input := env.freshInput }
  let w8 := newInstance Subsystem.Console CtorArgs.none w7
  let w9 := newInstance Subsystem.MemoryOutputWindow CtorArgs.none w8
  let w10 := newInstance Subsystem.TheApp (CtorArgs.viewSize VIEW_RIGHT VIEW_TOP) w9
  let w11 := newInstance Subsystem.TheGame CtorArgs.none w10
  let w12 := log (Call.RegisterProfilingChannel ProfilingID.g_frameTimeProfiling) w11
  let w13 := log (Call.RegisterProfilingChannel ProfilingID.g_updateProfiling) w12
  log (Call.RegisterProfilingChannel ProfilingID.g_renderProfiling) w13

/-- Lines 258-263. -/
def EngineCleanup (w : World) : World :=
  let w1 := log Call.CleanUpTextureRegistry w
  let w2 := log Call.CleanUpBitmapFontRegistry w1
  log Call.CleanUpProfilingUtils w2

/-- Lines 266-292. Of the arguments of `DrawText2D` the position and the text are kept. -/
def Shutdown (w : World) : World :=
  let w1 := log (Call.SetOrtho (Vector2.mk 0 0) (Vector2.mk 1600 900)) w
  let w2 := log Call.EnableAlphaBlending w1
  let w3 := log (Call.DrawText2D (Vector2.mk 500 400) "Saving and closing...") w2
  let w4 := log Call.SwapBuffers w3
  let w5 := deleteInstance Subsystem.TheGame w4
  let w6 := deleteInstance Subsystem.TheApp w5
  let w7 := deleteInstance Subsystem.MemoryOutputWindow w6
  let w8 := deleteInstance Subsystem.Console w7
  let w9 := deleteInstance Subsystem.InputSystem w8
  let w10 := deleteInstance Subsystem.AudioSystem w9
  let w11 := deleteInstance Subsystem.Renderer w10
  let w12 := EngineCleanup w11
  let w13 := log (Call.DeleteCriticalSection CriticalSection.g_chunkListsCriticalSection) w12
  log (Call.DeleteCriticalSection CriticalSection.g_diskIOCriticalSection) w13

/-! ## `WinMain` (lines 295-309) -/

/-- The loop `while (!g_isQuitting) RunFrame();` of lines 301-304, given `fuel` iterations.
`none` means the fuel ran out with the flag still clear. -/
def mainLoop (env : Env) : Nat → World → Option World
  | 0, w => if w.g_isQuitting then some w else none
  | fuel + 1, w => if w.g_isQuitting then some w else mainLoop env fuel (RunFrame env w)

/-- Lines 295-309; returns the final state and the exit code. -/
def WinMain (env : Env) (fuel : Nat) (w : World) : Option (World × Int) :=
  let w1 := log Call.MemoryAnalyticsStartup w
  let w2 := Initialize env w1
  match mainLoop env fuel w2 with
  | none => none
  | some w3 =>
    let w4 := Shutdown w3
    let w5 := log Call.MemoryAnalyticsShutdown w4
    some (w5, 0)

/-! ## Vocabulary for stating properties of traces -/

/-- The calls a step added to the trace of `before`. -/
def callsSince (before after : World) : List Call :=
  after.trace.drop before.trace.length

/-- The subsystems constructed in a trace, in order. -/
def constructionOrder : List Call → List Subsystem
  | [] => []
  | Call.New s _ :: rest => s :: constructionOrder rest
  | _ :: rest => constructionOrder rest

/-- The subsystems destroyed in a trace, in order. -/
def destructionOrder : List Call → List Subsystem
  | [] => []
  | Call.Delete s :: rest => s :: destructionOrder rest
  | _ :: rest => destructionOrder rest

/-- The subsystem instance a call dereferences, if any. -/
def Call.uses : Call → Option Subsystem
  | Call.Update s _ => some s
  | Call.Render s => some s
  | Call.AdvanceFrameNumber => some Subsystem.InputSystem
  | Call.SetOrtho _ _ => some Subsystem.Renderer
  | Call.EnableAlphaBlending => some Subsystem.Renderer
  | Call.DrawText2D _ _ => some Subsystem.Renderer
  | _ => none

/-- No call of the trace dereferences a subsystem after the `delete` of that subsystem. -/
def noUseAfterDelete : List Call → Bool
  | [] => true
  | Call.Delete s :: rest =>
    rest.all (fun c => decide (c.uses ≠ some s)) && noUseAfterDelete rest
  | _ :: rest => noUseAfterDelete rest

/-- The `deltaSeconds` values handed to the game layer in a trace, in order. -/
def deltaSecondsOf : List Call → List FloatValue
  | [] => []
  | Call.Update Subsystem.TheGame dt :: rest => dt :: deltaSecondsOf rest
  | _ :: rest => deltaSecondsOf rest

/-- The calls `pumpLoop` makes for a batch of pending messages. -/
def pumpCalls : List Msg → List Call
  | [] => [Call.PeekMessage]
  | m :: rest =>
    Call.PeekMessage :: Call.TranslateMessage m :: Call.DispatchMessage m :: pumpCalls rest

/-- The state reached by `n` consecutive calls of `RunFrame`. -/
def runFrames (env : Env) : Nat → World → World
  | 0, w => w
  | n + 1, w => runFrames env n (RunFrame env w)



/-- The calls one `Update` makes when it samples the clock `clockCalls` times and computes
`deltaSeconds`. -/
def updateCalls (clockCalls : Nat) (deltaSeconds : FloatValue) : List Call :=
  [Call.StartTiming ProfilingID.g_updateProfiling] ++
    List.replicate clockCalls Call.GetCurrentTimeSeconds ++
    [ Call.Update Subsystem.InputSystem deltaSeconds,
      Call.Update Subsystem.AudioSystem deltaSeconds,
      Call.Update Subsystem.Console deltaSeconds,
      Call.Update Subsystem.MemoryOutputWindow deltaSeconds,
      Call.Update Subsystem.TheGame deltaSeconds,
      Call.EndTiming ProfilingID.g_updateProfiling ]

/-- The calls one `Render` makes. -/
def renderCalls : List Call :=
  [ Call.StartTiming ProfilingID.g_renderProfiling,
    Call.Render Subsystem.TheGame,
    Call.Render Subsystem.MemoryOutputWindow,
    Call.Render Subsystem.Console,
    Call.SwapBuffers,
    Call.EndTiming ProfilingID.g_renderProfiling ]

/-- How many clock samples the next `Update` takes: two when the initialiser of the static has
yet to run, one afterwards. -/
def clockCallsNext (w : World) : Nat :=
  match w.s_timeLastFrameStarted with
  | some _ => 1
  | none => 2

/-- The time the next `Update` samples as `timeNow`. -/
def timeNowNext (env : Env) (w : World) : ℚ :=
  env.clock (w.clockReads + clockCallsNext w - 1)

/-- The `deltaSeconds` the next `Update` computes. -/
def deltaSecondsNext (env : Env) (w : World) : FloatValue :=
  match w.s_timeLastFrameStarted with
  | some t => doubleToFloat (doubleSub (env.clock w.clockReads) t)
  | none => doubleToFloat (doubleSub (env.clock (w.clockReads + 1)) (env.clock w.clockReads))

/-- An environment for concrete evaluations: the clock ticks once a sample, the first two pumps
find a key-down of `A`, the third finds a close event, later ones find nothing. -/
def Env.sample : Env :=
  { hWnd := 1
    displayDeviceContext := 2
    openGLRenderingContext := 3
    freshInput := InputSystem.idle
    clock := fun n => (n : ℚ)
    pending := fun n =>
      if n < 2 then [Msg.mk WM_KEYDOWN 65 0]
      else if n = 2 then [Msg.mk WM_CLOSE 0 0]
      else [] }


/-- The sample environment with a clock that reads 0 at its first sample and `2 ^ 24 + 1`
seconds at every later one. -/
def Env.late : Env :=
  { Env.sample with clock := fun n => if n = 0 then 0 else 16777217 }

/-- The calls made by `n` consecutive calls of `RunFrame` from `w`. -/
def runFramesCalls (env : Env) : Nat → World → List Call
  | 0, _ => []
  | n + 1, w =>
    ([Call.AdvanceFrameNumber, Call.StartTiming ProfilingID.g_frameTimeProfiling] ++
        pumpCalls (env.pending w.pumpRuns) ++
        updateCalls (clockCallsNext w) (deltaSecondsNext env w) ++
        renderCalls ++ [Call.EndTiming ProfilingID.g_frameTimeProfiling]) ++
      runFramesCalls env n (RunFrame env w)

/-! ## Facts about rounding -/

theorem roundHalfEven_nonneg (x : ℚ) (hx : 0 ≤ x) : 0 ≤ roundHalfEven x := by
  have hf : (0 : Int) ≤ ⌊x⌋ := Int.floor_nonneg.mpr hx
  unfold roundHalfEven
  simp only []
  split_ifs <;> omega

theorem roundHalfEven_intCast (n : Int) : roundHalfEven (n : ℚ) = n := by
  unfold roundHalfEven
  simp

/-- Rounding keeps the sign: a value that is at least 0 rounds to one that is at least 0. -/
theorem roundToFormat_nonneg (F : FloatFormat) (x : ℚ) (hx : 0 ≤ x) :
    (roundToFormat F x).nonneg := by
  unfold roundToFormat
  simp only []
  have hneg : ¬ x < 0 := not_lt.mpr hx
  split_ifs with h0 hover
  · exact le_refl (0 : ℚ)
  · simp [FloatValue.nonneg, hneg]
  · show (0 : ℚ) ≤ _
    have hq : (0 : ℚ) <
        (2 : ℚ) ^ (max (Int.log 2 |x|) (1 - F.emax) - ((F.precision : Int) - 1)) :=
      zpow_pos (by norm_num) _
    have hr : 0 ≤ roundHalfEven
        (|x| / (2 : ℚ) ^ (max (Int.log 2 |x|) (1 - F.emax) - ((F.precision : Int) - 1))) :=
      roundHalfEven_nonneg _ (div_nonneg (abs_nonneg x) hq.le)
    exact mul_nonneg (by exact_mod_cast hr) hq.le

theorem doubleSub_nonneg (a b : ℚ) (h : b ≤ a) : (doubleSub a b).nonneg :=
  roundToFormat_nonneg binary64 (a - b) (sub_nonneg.mpr h)

theorem doubleToFloat_nonneg (v : FloatValue) (h : v.nonneg) : (doubleToFloat v).nonneg := by
  cases v with
  | finite q => exact roundToFormat_nonneg binary32 q h
  | infinite n => exact h

theorem log2_16777217 : Int.log 2 (16777217 : ℚ) = 24 := by
  have h : Int.log 2 ((16777217 : ℕ) : ℚ) = Nat.log 2 16777217 := Int.log_natCast 2 16777217
  have h2 : Nat.log 2 16777217 = 24 :=
    Nat.log_eq_of_pow_le_of_lt_pow (by norm_num) (by norm_num)
  rw [h2] at h
  exact_mod_cast h

theorem roundHalfEven_tie : roundHalfEven (16777217 / 2) = 8388608 := by
  have hf : ⌊(16777217 / 2 : ℚ)⌋ = 8388608 := by
    rw [Int.floor_eq_iff]
    constructor <;> norm_num
  unfold roundHalfEven
  simp only [hf]
  norm_num

/-- The `double` difference `16777217.0 - 0.0` is exact. -/
theorem doubleSub_16777217 : doubleSub 16777217 0 = FloatValue.finite 16777217 := by
  unfold doubleSub roundToFormat
  have ha : |(16777217 - 0 : ℚ)| = 16777217 := by norm_num
  have hl : Int.log 2 (16777217 - 0 : ℚ) = 24 := by
    rw [sub_zero]; exact log2_16777217
  have hr : roundHalfEven (4503599895805952 : ℚ) = 4503599895805952 := by
    have h := roundHalfEven_intCast 4503599895805952
    simpa using h
  simp only [ha, log2_16777217, binary64]
  norm_num
  rw [hr]
  norm_num

/-- Narrowed to `float`, `16777217.0` lies half-way between `16777216.0f` and `16777218.0f` and
rounds to the one with the even significand. -/
theorem doubleToFloat_16777217 :
    doubleToFloat (FloatValue.finite 16777217) = FloatValue.finite 16777216 := by
  show roundToFormat binary32 16777217 = _
  unfold roundToFormat
  have ha : |(16777217 : ℚ)| = 16777217 := abs_of_pos (by norm_num)
  simp only [ha, log2_16777217, binary32]
  norm_num
  rw [show (16777217 / 2 : ℚ) = 16777217 / 2 from rfl, roundHalfEven_tie]
  norm_num

theorem log2_tenth : Int.log 2 (3518437208883 / 35184372088832 : ℚ) = -4 := by
  have hpos : (0 : ℚ) < 3518437208883 / 35184372088832 := by norm_num
  apply le_antisymm
  · have h := (Int.lt_zpow_iff_log_lt (R := ℚ) (b := 2) (by norm_num) (x := -3) hpos).mp
      (by norm_num)
    omega
  · exact (Int.zpow_le_iff_le_log (R := ℚ) (b := 2) (by norm_num) (x := -4) hpos).mp
      (by norm_num)

/-- The samples `100.0` and `100.1`: the `double` difference is exact and narrows to the
`float` nearest to it. -/
theorem doubleToFloat_doubleSub_tenth :
    doubleToFloat (doubleSub (100 + 3518437208883 / 35184372088832) 100) =
      FloatValue.finite (13421773 / 134217728) := by
  have hx : (100 + 3518437208883 / 35184372088832 - 100 : ℚ) =
      3518437208883 / 35184372088832 := by norm_num
  have ha : |(3518437208883 / 35184372088832 : ℚ)| = 3518437208883 / 35184372088832 :=
    abs_of_pos (by norm_num)
  have hr : roundHalfEven (7205759403792384 : ℚ) = 7205759403792384 := by
    have h := roundHalfEven_intCast 7205759403792384
    simpa using h
  have h64 : doubleSub (100 + 3518437208883 / 35184372088832) 100 =
      FloatValue.finite (3518437208883 / 35184372088832) := by
    unfold doubleSub roundToFormat
    simp only [hx, ha, log2_tenth, binary64]
    norm_num
    rw [hr]
    norm_num
  have hf : ⌊(3518437208883 / 262144 : ℚ)⌋ = 13421772 := by
    rw [Int.floor_eq_iff]
    constructor <;> norm_num
  have hr2 : roundHalfEven (3518437208883 / 262144 : ℚ) = 13421773 := by
    unfold roundHalfEven
    simp only [hf]
    norm_num
  rw [h64]
  show roundToFormat binary32 _ = _
  unfold roundToFormat
  simp only [ha, log2_tenth, binary32]
  norm_num
  rw [hr2]
  norm_num

/-! ## Facts about the window procedure -/

theorem ite_ind {α : Type} (P : α → Prop) (c : Prop) [Decidable c] (a b : α)
    (ha : P a) (hb : P b) : P (if c then a else b) := by
  split_ifs <;> assumption

theorem wndProc_quit_iff (w : World) (m : Msg) :
    (WindowsMessageHandlingProcedure w m).1.g_isQuitting = true ↔
      (w.g_isQuitting = true ∨ isQuitEvent m) := by
  unfold WindowsMessageHandlingProcedure isQuitEvent
  simp only []
  by_cases h1 : m.wmMessageCode = WM_CLOSE ∨ m.wmMessageCode = WM_DESTROY ∨
      m.wmMessageCode = WM_QUIT
  · rw [if_pos h1]
    simp only [true_iff]
    right
    tauto
  · rw [if_neg h1]
    have e1 : m.wmMessageCode ≠ WM_CLOSE := fun h => h1 (Or.inl h)
    have e2 : m.wmMessageCode ≠ WM_DESTROY := fun h => h1 (Or.inr (Or.inl h))
    have e3 : m.wmMessageCode ≠ WM_QUIT := fun h => h1 (Or.inr (Or.inr h))
    by_cases h2 : m.wmMessageCode = WM_KEYDOWN
    · have h3 : m.wmMessageCode ≠ WM_CHAR := by rw [h2]; decide
      rw [if_neg h3, if_pos h2]
      by_cases h4 : m.wParam % 256 = VK_ESCAPE
      · rw [if_pos h4]; simp [h2, h4]
      · rw [if_neg h4]
        rw [h2] at e1 e2 e3
        simp [h2, h4, e1, e2, e3]
    · have pick : ∀ (a b : World × LResult) (c : Prop) [Decidable c],
          a.1.g_isQuitting = w.g_isQuitting → b.1.g_isQuitting = w.g_isQuitting →
          (if c then a else b).1.g_isQuitting = w.g_isQuitting := by
        intro a b c _ ha hb; split_ifs <;> assumption
      rw [if_neg h2]
      have key : ∀ x : World × LResult, x.1.g_isQuitting = w.g_isQuitting →
          (x.1.g_isQuitting = true ↔ w.g_isQuitting = true ∨ m.wmMessageCode = WM_CLOSE ∨
            m.wmMessageCode = WM_DESTROY ∨ m.wmMessageCode = WM_QUIT ∨
            m.wmMessageCode = WM_KEYDOWN ∧ m.wParam % 256 = VK_ESCAPE) := by
        intro x hx; rw [hx]; simp [e1, e2, e3, h2]
      apply key
      repeat (first | rfl | apply pick)

/-- The window procedure writes the quit flag and the input state and nothing else. -/
theorem wndProc_frame (w : World) (m : Msg) :
    ∃ (q : Bool) (i : InputSystem),
      (WindowsMessageHandlingProcedure w m).1 = { w with g_isQuitting := q, input := i } := by
  unfold WindowsMessageHandlingProcedure
  simp only []
  repeat (first
    | exact ⟨_, _, rfl⟩
    | apply ite_ind (fun x : World × LResult =>
        ∃ (q : Bool) (i : InputSystem), x.1 = { w with g_isQuitting := q, input := i }))

theorem wndProc_trace (w : World) (m : Msg) :
    (WindowsMessageHandlingProcedure w m).1.trace = w.trace := by
  obtain ⟨q, i, h⟩ := wndProc_frame w m
  rw [h]

theorem wndProc_clockReads (w : World) (m : Msg) :
    (WindowsMessageHandlingProcedure w m).1.clockReads = w.clockReads := by
  obtain ⟨q, i, h⟩ := wndProc_frame w m
  rw [h]

theorem wndProc_pumpRuns (w : World) (m : Msg) :
    (WindowsMessageHandlingProcedure w m).1.pumpRuns = w.pumpRuns := by
  obtain ⟨q, i, h⟩ := wndProc_frame w m
  rw [h]

theorem wndProc_static (w : World) (m : Msg) :
    (WindowsMessageHandlingProcedure w m).1.s_timeLastFrameStarted = w.s_timeLastFrameStarted := by
  obtain ⟨q, i, h⟩ := wndProc_frame w m
  rw [h]

theorem wndProc_char (w : World) (p : Nat) (l : Int) :
    (WindowsMessageHandlingProcedure w (Msg.mk WM_CHAR p l)).1 =
      { w with input := w.input.SetLastPressedChar (p % 256) } := by
  simp [WindowsMessageHandlingProcedure, WM_CHAR, WM_CLOSE, WM_DESTROY, WM_QUIT]

theorem wndProc_keydown_input (w : World) (p : Nat) (l : Int) :
    (WindowsMessageHandlingProcedure w (Msg.mk WM_KEYDOWN p l)).1.input =
      w.input.SetKeyDownStatus (p % 256) true := by
  by_cases h : p % 256 = 27 <;>
    simp [WindowsMessageHandlingProcedure, WM_CHAR, WM_CLOSE, WM_DESTROY, WM_QUIT, WM_KEYDOWN,
      VK_ESCAPE, h]

theorem wndProc_keydown_quit (w : World) (p : Nat) (l : Int) :
    (WindowsMessageHandlingProcedure w (Msg.mk WM_KEYDOWN p l)).1.g_isQuitting =
      (w.g_isQuitting || decide (p % 256 = VK_ESCAPE)) := by
  by_cases h : p % 256 = 27 <;>
    simp [WindowsMessageHandlingProcedure, WM_CHAR, WM_CLOSE, WM_DESTROY, WM_QUIT, WM_KEYDOWN,
      VK_ESCAPE, h]

theorem wndProc_keyup (w : World) (p : Nat) (l : Int) :
    (WindowsMessageHandlingProcedure w (Msg.mk WM_KEYUP p l)).1 =
      { w with input := w.input.SetKeyDownStatus (p % 256) false } := by
  simp [WindowsMessageHandlingProcedure, WM_CHAR, WM_CLOSE, WM_DESTROY, WM_QUIT, WM_KEYDOWN,
    WM_KEYUP]

theorem wndProc_mouse_down (w : World) (p : Nat) (l : Int) :
    (WindowsMessageHandlingProcedure w (Msg.mk WM_LBUTTONDOWN p l)).1 =
        { w with input := w.input.SetMouseDownStatus 0 true } ∧
    (WindowsMessageHandlingProcedure w (Msg.mk WM_RBUTTONDOWN p l)).1 =
        { w with input := w.input.SetMouseDownStatus 1 true } ∧
    (WindowsMessageHandlingProcedure w (Msg.mk WM_MBUTTONDOWN p l)).1 =
        { w with input := w.input.SetMouseDownStatus 2 true } := by
  refine ⟨?_, ?_, ?_⟩ <;>
    simp [WindowsMessageHandlingProcedure, WM_CHAR, WM_CLOSE, WM_DESTROY, WM_QUIT, WM_KEYDOWN,
      WM_KEYUP, WM_LBUTTONDOWN, WM_RBUTTONDOWN, WM_MBUTTONDOWN]

theorem wndProc_mouse_up (w : World) (p : Nat) (l : Int) :
    (WindowsMessageHandlingProcedure w (Msg.mk WM_LBUTTONUP p l)).1 =
        { w with input := w.input.SetMouseDownStatus 0 false } ∧
    (WindowsMessageHandlingProcedure w (Msg.mk WM_RBUTTONUP p l)).1 =
        { w with input := w.input.SetMouseDownStatus 1 false } ∧
    (WindowsMessageHandlingProcedure w (Msg.mk WM_MBUTTONUP p l)).1 =
        { w with input := w.input.SetMouseDownStatus 2 false } := by
  refine ⟨?_, ?_, ?_⟩ <;>
    simp [WindowsMessageHandlingProcedure, WM_CHAR, WM_CLOSE, WM_DESTROY, WM_QUIT, WM_KEYDOWN,
      WM_KEYUP, WM_LBUTTONDOWN, WM_RBUTTONDOWN, WM_MBUTTONDOWN, WM_LBUTTONUP, WM_RBUTTONUP,
      WM_MBUTTONUP]

theorem handleAll_nil (w : World) : handleAll w [] = w := rfl

theorem handleAll_cons (w : World) (m : Msg) (ms : List Msg) :
    handleAll w (m :: ms) = handleAll (WindowsMessageHandlingProcedure w m).1 ms := rfl

theorem handleAll_quit_iff (ms : List Msg) :
    ∀ w : World, (handleAll w ms).g_isQuitting = true ↔
      (w.g_isQuitting = true ∨ ∃ m ∈ ms, isQuitEvent m) := by
  induction ms with
  | nil => intro w; simp [handleAll_nil]
  | cons m ms ih =>
    intro w
    rw [handleAll_cons, ih, wndProc_quit_iff]
    simp only [List.mem_cons, exists_eq_or_imp, or_assoc]


/-! ## C1: the quit flag -/

/-- C1 (as amended): starting from a clear quit flag, after the window procedure has handled any
finite sequence of events the flag is set if and only if the sequence contains a `WM_CLOSE`,
`WM_DESTROY` or `WM_QUIT` event or a `WM_KEYDOWN` event whose `wParam`, narrowed to its low
byte, is `VK_ESCAPE`; and the flag is monotonic: once set, handling one more event, or any
further sequence of events, leaves it set. -/
theorem quit_flag_iff_quit_event (w : World) (ms : List Msg) (h : w.g_isQuitting = false) :
    ((handleAll w ms).g_isQuitting = true ↔ ∃ m ∈ ms, isQuitEvent m) ∧
    (∀ (v : World) (m : Msg), v.g_isQuitting = true →
      (WindowsMessageHandlingProcedure v m).1.g_isQuitting = true) ∧
    (∀ (v : World) (more : List Msg), v.g_isQuitting = true →
      (handleAll v more).g_isQuitting = true) := by
  refine ⟨?_, ?_, ?_⟩
  · rw [handleAll_quit_iff, h]
    simp
  · intro v m hv
    exact (wndProc_quit_iff v m).mpr (Or.inl hv)
  · intro v more hv
    exact (handleAll_quit_iff more v).mpr (Or.inl hv)

/-- C1, instance: from the initial state, the two events key-down `A` (65), close. -/
theorem quit_flag_iff_quit_event_witness :
    (World.initial InputSystem.idle).g_isQuitting = false ∧
    (((handleAll (World.initial InputSystem.idle)
        [Msg.mk WM_KEYDOWN 65 0, Msg.mk WM_CLOSE 0 0]).g_isQuitting = true ↔
      ∃ m ∈ [Msg.mk WM_KEYDOWN 65 0, Msg.mk WM_CLOSE 0 0], isQuitEvent m) ∧
    (∀ (v : World) (m : Msg), v.g_isQuitting = true →
      (WindowsMessageHandlingProcedure v m).1.g_isQuitting = true) ∧
    (∀ (v : World) (more : List Msg), v.g_isQuitting = true →
      (handleAll v more).g_isQuitting = true)) :=
  ⟨rfl, quit_flag_iff_quit_event (World.initial InputSystem.idle)
    [Msg.mk WM_KEYDOWN 65 0, Msg.mk WM_CLOSE 0 0] rfl⟩

/-- C1, as worded, fails: the single event `WM_KEYDOWN` with `wParam = 283` (`0x11B`, not the
cancel key code `27`) sets the quit flag from the initial state, although the sequence holds no
close, destroy or quit event and no key-down event whose key code is `VK_ESCAPE`. -/
theorem quit_flag_set_without_cancel_key :
    (World.initial InputSystem.idle).g_isQuitting = false ∧
    (handleAll (World.initial InputSystem.idle) [Msg.mk WM_KEYDOWN 283 0]).g_isQuitting = true ∧
    (∀ m ∈ [Msg.mk WM_KEYDOWN 283 0], ¬ isQuitEventAsWritten m) := by
  refine ⟨rfl, ?_, ?_⟩
  · rw [handleAll_quit_iff]
    right
    exact ⟨_, List.mem_singleton.mpr rfl, by decide⟩
  · intro m hm
    rw [List.mem_singleton.mp hm]
    decide

/-! ## C8: the view rectangle -/

/-- C8 (as amended): the view rectangle constants are `BOTTOM_LEFT = (VIEW_LEFT, VIEW_BOTTOM)
= (0, 0)` and `TOP_RIGHT = (VIEW_RIGHT, VIEW_TOP) = (1600, 1600 * 900 / 1600) = (1600, 900)`. -/
theorem view_rectangle_constants :
    BOTTOM_LEFT = Vector2.mk VIEW_LEFT VIEW_BOTTOM ∧ BOTTOM_LEFT = Vector2.mk 0 0 ∧
    TOP_RIGHT = Vector2.mk VIEW_RIGHT VIEW_TOP ∧
    VIEW_TOP = 1600 * 900 / 1600 ∧ TOP_RIGHT = Vector2.mk 1600 900 := by
  refine ⟨rfl, ?_, rfl, ?_, ?_⟩
  · simp [BOTTOM_LEFT, VIEW_LEFT, VIEW_BOTTOM]
  · norm_num [VIEW_TOP, VIEW_RIGHT, WINDOW_PHYSICAL_HEIGHT, WINDOW_PHYSICAL_WIDTH]
  · norm_num [TOP_RIGHT, VIEW_TOP, VIEW_RIGHT, WINDOW_PHYSICAL_HEIGHT, WINDOW_PHYSICAL_WIDTH]

/-- C8, as worded, fails: the top of the view rectangle is `900`, not `900 * 900 / 1600 =
506.25`, so `TOP_RIGHT` is not `(1600, 506.25)`. -/
theorem view_top_is_not_506_25 :
    VIEW_TOP = 900 ∧ VIEW_TOP ≠ 900 * 900 / 1600 ∧ TOP_RIGHT ≠ Vector2.mk 1600 (2025 / 4) ∧
    (900 * 900 / 1600 : ℚ) = 2025 / 4 := by
  have h : VIEW_TOP = 900 := by
    norm_num [VIEW_TOP, VIEW_RIGHT, WINDOW_PHYSICAL_HEIGHT, WINDOW_PHYSICAL_WIDTH]
  refine ⟨h, ?_, ?_, ?_⟩
  · rw [h]; norm_num
  · intro e
    have e2 : VIEW_TOP = 2025 / 4 := congrArg Vector2.y e
    rw [h] at e2
    norm_num at e2
  · norm_num

/-! ## C9: down then up -/

/-- C9: for every state, key code and message parameters, handling the key-down event and then
the key-up event of the same key code leaves that key (the code the input state is given,
`wParam % 256`, which is the key code itself below 256) not held; and handling a left, right
or middle button-down event and then the matching button-up event leaves logical button 0, 1
or 2 not held. -/
theorem down_then_up_leaves_not_held (w : World) (key p1 p2 : Nat) (l1 l2 : Int) :
    (handleAll w [Msg.mk WM_KEYDOWN key l1, Msg.mk WM_KEYUP key l2]).input.isKeyDown (key % 256)
      = false ∧
    (key < 256 →
      (handleAll w [Msg.mk WM_KEYDOWN key l1, Msg.mk WM_KEYUP key l2]).input.isKeyDown key
        = false) ∧
    (handleAll w [Msg.mk WM_LBUTTONDOWN p1 l1, Msg.mk WM_LBUTTONUP p2 l2]).input.isMouseDown 0
      = false ∧
    (handleAll w [Msg.mk WM_RBUTTONDOWN p1 l1, Msg.mk WM_RBUTTONUP p2 l2]).input.isMouseDown 1
      = false ∧
    (handleAll w [Msg.mk WM_MBUTTONDOWN p1 l1, Msg.mk WM_MBUTTONUP p2 l2]).input.isMouseDown 2
      = false := by
  have hk : (handleAll w [Msg.mk WM_KEYDOWN key l1, Msg.mk WM_KEYUP key l2]).input.isKeyDown
      (key % 256) = false := by
    simp [handleAll_cons, handleAll_nil, wndProc_keyup, InputSystem.SetKeyDownStatus]
  refine ⟨hk, ?_, ?_, ?_, ?_⟩
  · intro hlt
    rw [Nat.mod_eq_of_lt hlt] at hk
    exact hk
  · simp [handleAll_cons, handleAll_nil, (wndProc_mouse_up _ p2 l2).1,
      InputSystem.SetMouseDownStatus]
  · simp [handleAll_cons, handleAll_nil, (wndProc_mouse_up _ p2 l2).2.1,
      InputSystem.SetMouseDownStatus]
  · simp [handleAll_cons, handleAll_nil, (wndProc_mouse_up _ p2 l2).2.2,
      InputSystem.SetMouseDownStatus]

/-- C9, instance: the escape key held and released, from the initial state. -/
theorem down_then_up_leaves_not_held_witness :
    (handleAll (World.initial InputSystem.idle)
      [Msg.mk WM_KEYDOWN 27 0, Msg.mk WM_KEYUP 27 0]).input.isKeyDown 27 = false :=
  (down_then_up_leaves_not_held (World.initial InputSystem.idle) 27 0 0 0 0).2.1 (by decide)

/-! ## C10: only the low byte of `wParam` forms the key code -/

/-- C10: for `WM_CHAR`, `WM_KEYDOWN` and `WM_KEYUP` the code handed to the input state is
`wParam % 256`; a `WM_KEYDOWN` event sets a clear quit flag exactly when `wParam % 256 = 27`
(`VK_ESCAPE`); two such events whose `wParam` agree modulo 256 have the same effect on the input
state and on the quit flag; and the key-down event with `wParam = 283`, which is not 27, sets
the quit flag. -/
theorem key_code_is_low_byte (w : World) (p : Nat) (l : Int) :
    (WindowsMessageHandlingProcedure w (Msg.mk WM_CHAR p l)).1.input =
      w.input.SetLastPressedChar (p % 256) ∧
    (WindowsMessageHandlingProcedure w (Msg.mk WM_KEYDOWN p l)).1.input =
      w.input.SetKeyDownStatus (p % 256) true ∧
    (WindowsMessageHandlingProcedure w (Msg.mk WM_KEYUP p l)).1.input =
      w.input.SetKeyDownStatus (p % 256) false ∧
    VK_ESCAPE = 27 ∧
    (w.g_isQuitting = false →
      ((WindowsMessageHandlingProcedure w (Msg.mk WM_KEYDOWN p l)).1.g_isQuitting = true ↔
        p % 256 = 27)) ∧
    (∀ (c q : Nat) (k : Int), c ∈ [WM_CHAR, WM_KEYDOWN, WM_KEYUP] → p % 256 = q % 256 →
      (WindowsMessageHandlingProcedure w (Msg.mk c p l)).1.input =
        (WindowsMessageHandlingProcedure w (Msg.mk c q k)).1.input ∧
      (WindowsMessageHandlingProcedure w (Msg.mk c p l)).1.g_isQuitting =
        (WindowsMessageHandlingProcedure w (Msg.mk c q k)).1.g_isQuitting) ∧
    ((283 : Nat) ≠ 27 ∧
      (WindowsMessageHandlingProcedure w (Msg.mk WM_KEYDOWN 283 l)).1.g_isQuitting = true) := by
  refine ⟨?_, wndProc_keydown_input w p l, ?_, rfl, ?_, ?_, by decide, ?_⟩
  · rw [wndProc_char]
  · rw [wndProc_keyup]
  · intro hq
    rw [wndProc_keydown_quit, hq]
    simp [VK_ESCAPE]
  · intro c q k hc hpq
    simp only [List.mem_cons, List.mem_singleton, List.not_mem_nil, or_false] at hc
    rcases hc with rfl | rfl | rfl
    · rw [wndProc_char, wndProc_char, hpq]
      exact ⟨rfl, rfl⟩
    · rw [wndProc_keydown_input, wndProc_keydown_input, wndProc_keydown_quit,
        wndProc_keydown_quit, hpq]
      exact ⟨rfl, rfl⟩
    · rw [wndProc_keyup, wndProc_keyup, hpq]
      exact ⟨rfl, rfl⟩
  · rw [wndProc_keydown_quit]
    simp [VK_ESCAPE]

/-- C10, instance: from the initial state, key-down with `wParam = 27` and with `wParam = 283`
agree on the input state and on the quit flag. -/
theorem key_code_is_low_byte_witness :
    (WindowsMessageHandlingProcedure (World.initial InputSystem.idle)
        (Msg.mk WM_KEYDOWN 27 0)).1.input =
      (WindowsMessageHandlingProcedure (World.initial InputSystem.idle)
        (Msg.mk WM_KEYDOWN 283 0)).1.input ∧
    (WindowsMessageHandlingProcedure (World.initial InputSystem.idle)
        (Msg.mk WM_KEYDOWN 27 0)).1.g_isQuitting =
      (WindowsMessageHandlingProcedure (World.initial InputSystem.idle)
        (Msg.mk WM_KEYDOWN 283 0)).1.g_isQuitting :=
  (key_code_is_low_byte (World.initial InputSystem.idle) 27 0).2.2.2.2.2.1
    WM_KEYDOWN 283 0 (by simp) (by decide)

theorem log_eq (c : Call) (w : World) : log c w = { w with trace := w.trace ++ [c] } := rfl

theorem Render_eq (w : World) : Render w = { w with trace := w.trace ++ renderCalls } := by
  simp [Render, log, renderCalls]

theorem Update_eq (env : Env) (w : World) :
    Update env w =
      { w with
        s_timeLastFrameStarted := some (timeNowNext env w)
        clockReads := w.clockReads + clockCallsNext w
        trace := w.trace ++ updateCalls (clockCallsNext w) (deltaSecondsNext env w) } := by
  cases h : w.s_timeLastFrameStarted <;>
    simp [Update, staticTimeLastFrameStarted, GetCurrentTimeSeconds, log, updateCalls,
      clockCallsNext, timeNowNext, deltaSecondsNext, h, List.replicate]


/-! ## The message pump -/

theorem pumpLoop_trace (ms : List Msg) :
    ∀ w : World, (pumpLoop ms w).trace = w.trace ++ pumpCalls ms := by
  induction ms with
  | nil => intro w; rfl
  | cons m ms ih =>
    intro w
    simp only [pumpLoop, pumpCalls]
    rw [ih, wndProc_trace]
    simp [log]

theorem pumpLoop_clockReads (ms : List Msg) :
    ∀ w : World, (pumpLoop ms w).clockReads = w.clockReads := by
  induction ms with
  | nil => intro w; rfl
  | cons m ms ih =>
    intro w
    simp only [pumpLoop]
    rw [ih, wndProc_clockReads]
    rfl

theorem pumpLoop_pumpRuns (ms : List Msg) :
    ∀ w : World, (pumpLoop ms w).pumpRuns = w.pumpRuns := by
  induction ms with
  | nil => intro w; rfl
  | cons m ms ih =>
    intro w
    simp only [pumpLoop]
    rw [ih, wndProc_pumpRuns]
    rfl

theorem pumpLoop_static (ms : List Msg) :
    ∀ w : World, (pumpLoop ms w).s_timeLastFrameStarted = w.s_timeLastFrameStarted := by
  induction ms with
  | nil => intro w; rfl
  | cons m ms ih =>
    intro w
    simp only [pumpLoop]
    rw [ih, wndProc_static]
    rfl

theorem pumpLoop_quit_iff (ms : List Msg) :
    ∀ w : World, (pumpLoop ms w).g_isQuitting = true ↔
      (w.g_isQuitting = true ∨ ∃ m ∈ ms, isQuitEvent m) := by
  induction ms with
  | nil => intro w; simp [pumpLoop, log]
  | cons m ms ih =>
    intro w
    simp only [pumpLoop]
    rw [ih, wndProc_quit_iff]
    simp only [log, List.mem_cons, exists_eq_or_imp, or_assoc]

/-! ## One frame -/

/-- The calls of one `RunFrame`. -/
theorem RunFrame_trace (env : Env) (w : World) :
    (RunFrame env w).trace =
      w.trace ++ ([Call.AdvanceFrameNumber, Call.StartTiming ProfilingID.g_frameTimeProfiling] ++
        pumpCalls (env.pending w.pumpRuns) ++
        updateCalls (clockCallsNext w) (deltaSecondsNext env w) ++
        renderCalls ++ [Call.EndTiming ProfilingID.g_frameTimeProfiling]) := by
  have hs : (RunMessagePump env
      (log (Call.StartTiming ProfilingID.g_frameTimeProfiling)
        (log Call.AdvanceFrameNumber
          { w with input := w.input.AdvanceFrameNumber }))).s_timeLastFrameStarted =
      w.s_timeLastFrameStarted := by
    simp [RunMessagePump, pumpLoop_static, log]
  have hc : (RunMessagePump env
      (log (Call.StartTiming ProfilingID.g_frameTimeProfiling)
        (log Call.AdvanceFrameNumber
          { w with input := w.input.AdvanceFrameNumber }))).clockReads = w.clockReads := by
    simp [RunMessagePump, pumpLoop_clockReads, log]
  simp only [RunFrame, Render_eq, Update_eq, log_eq]
  simp only [log_eq] at hs hc
  simp only [clockCallsNext, deltaSecondsNext, hs, hc]
  simp [RunMessagePump, pumpLoop_trace, List.append_assoc]

theorem RunFrame_quit_iff (env : Env) (w : World) :
    (RunFrame env w).g_isQuitting = true ↔
      (w.g_isQuitting = true ∨ ∃ m ∈ env.pending w.pumpRuns, isQuitEvent m) := by
  simp [RunFrame, Render_eq, Update_eq, log_eq, RunMessagePump, pumpLoop_quit_iff]

theorem RunFrame_pumpRuns (env : Env) (w : World) :
    (RunFrame env w).pumpRuns = w.pumpRuns + 1 := by
  simp [RunFrame, Render_eq, Update_eq, log_eq, RunMessagePump, pumpLoop_pumpRuns]

theorem RunFrame_clockReads (env : Env) (w : World) :
    (RunFrame env w).clockReads = w.clockReads + clockCallsNext w := by
  simp [RunFrame, Render_eq, Update_eq, log_eq, RunMessagePump, pumpLoop_clockReads,
    clockCallsNext, pumpLoop_static]

theorem RunFrame_static (env : Env) (w : World) :
    (RunFrame env w).s_timeLastFrameStarted = some (timeNowNext env w) := by
  simp [RunFrame, Render_eq, Update_eq, log_eq, RunMessagePump, pumpLoop_clockReads,
    clockCallsNext, timeNowNext, pumpLoop_static]

/-! ## Several frames -/

theorem callsSince_append (w v : World) (cs : List Call) (h : v.trace = w.trace ++ cs) :
    callsSince w v = cs := by
  unfold callsSince
  rw [h, List.drop_left]

theorem runFrames_succ_right (env : Env) (n : Nat) :
    ∀ w : World, runFrames env (n + 1) w = RunFrame env (runFrames env n w) := by
  induction n with
  | zero => intro w; rfl
  | succ n ih =>
    intro w
    show runFrames env (n + 1) (RunFrame env w) = _
    rw [ih]
    rfl

theorem runFrames_trace (env : Env) (n : Nat) :
    ∀ w : World, (runFrames env n w).trace = w.trace ++ runFramesCalls env n w := by
  induction n with
  | zero => intro w; simp [runFrames, runFramesCalls]
  | succ n ih =>
    intro w
    simp only [runFrames, runFramesCalls]
    rw [ih, RunFrame_trace, List.append_assoc]

theorem runFrames_pumpRuns (env : Env) (n : Nat) :
    ∀ w : World, (runFrames env n w).pumpRuns = w.pumpRuns + n := by
  induction n with
  | zero => intro w; rfl
  | succ n ih =>
    intro w
    simp only [runFrames]
    rw [ih, RunFrame_pumpRuns]
    omega

theorem runFrames_not_quitting (env : Env) (n : Nat) :
    ∀ w : World, w.g_isQuitting = false →
      (∀ i < n, ∀ m ∈ env.pending (w.pumpRuns + i), ¬ isQuitEvent m) →
      (runFrames env n w).g_isQuitting = false := by
  induction n with
  | zero => intro w hw _; exact hw
  | succ n ih =>
    intro w hw hno
    simp only [runFrames]
    apply ih
    · cases hq : (RunFrame env w).g_isQuitting with
      | false => rfl
      | true =>
        rcases (RunFrame_quit_iff env w).mp hq with h | ⟨m, hm, hmq⟩
        · rw [hw] at h; exact absurd h (by decide)
        · exact absurd hmq (hno 0 (Nat.succ_pos n) m (by simpa using hm))
    · intro i hi m hm
      rw [RunFrame_pumpRuns] at hm
      exact hno (i + 1) (Nat.succ_lt_succ hi) m (by
        have e : w.pumpRuns + (i + 1) = w.pumpRuns + 1 + i := by omega
        rw [e]; exact hm)

theorem mainLoop_of_quitting (env : Env) (fuel : Nat) (w : World)
    (h : w.g_isQuitting = true) : mainLoop env fuel w = some w := by
  cases fuel <;> simp [mainLoop, h]

theorem mainLoop_runs (env : Env) (k : Nat) :
    ∀ (fuel : Nat) (w : World), w.g_isQuitting = false →
      (∀ i < k, ∀ m ∈ env.pending (w.pumpRuns + i), ¬ isQuitEvent m) →
      (∃ m ∈ env.pending (w.pumpRuns + k), isQuitEvent m) →
      k < fuel →
      mainLoop env fuel w = some (runFrames env (k + 1) w) := by
  induction k with
  | zero =>
    intro fuel w hw _ hk hf
    obtain ⟨f, rfl⟩ : ∃ f, fuel = f + 1 := ⟨fuel - 1, by omega⟩
    simp only [mainLoop, hw, runFrames]
    apply mainLoop_of_quitting
    exact (RunFrame_quit_iff env w).mpr (Or.inr (by simpa using hk))
  | succ k ih =>
    intro fuel w hw hno hk hf
    obtain ⟨f, rfl⟩ : ∃ f, fuel = f + 1 := ⟨fuel - 1, by omega⟩
    have hq : (RunFrame env w).g_isQuitting = false := by
      cases hq : (RunFrame env w).g_isQuitting with
      | false => rfl
      | true =>
        rcases (RunFrame_quit_iff env w).mp hq with h | ⟨m, hm, hmq⟩
        · rw [hw] at h; exact absurd h (by decide)
        · exact absurd hmq (hno 0 (Nat.succ_pos k) m (by simpa using hm))
    have step : mainLoop env (f + 1) w = mainLoop env f (RunFrame env w) := by
      simp [mainLoop, hw]
    rw [step]
    have e : ∀ i, w.pumpRuns + (i + 1) = (RunFrame env w).pumpRuns + i := by
      intro i; rw [RunFrame_pumpRuns]; omega
    rw [ih f (RunFrame env w) hq
      (by
        intro i hi m hm
        rw [← e i] at hm
        exact hno (i + 1) (Nat.succ_lt_succ hi) m hm)
      (by
        obtain ⟨m, hm, hmq⟩ := hk
        rw [e k] at hm
        exact ⟨m, hm, hmq⟩)
      (by omega)]
    rfl

/-! ## Counting frames and collecting `deltaSeconds` in traces -/

theorem count_advance_pumpCalls (ms : List Msg) :
    (pumpCalls ms).count Call.AdvanceFrameNumber = 0 := by
  induction ms with
  | nil => decide
  | cons m ms ih =>
    simp only [pumpCalls]
    rw [List.count_cons_of_ne (by intro h; cases h), List.count_cons_of_ne (by intro h; cases h),
      List.count_cons_of_ne (by intro h; cases h), ih]

theorem count_advance_updateCalls (n : Nat) (dt : FloatValue) :
    (updateCalls n dt).count Call.AdvanceFrameNumber = 0 := by
  unfold updateCalls
  rw [List.count_append, List.count_append, List.count_replicate]
  simp [List.count_cons]

theorem count_advance_renderCalls : renderCalls.count Call.AdvanceFrameNumber = 0 := by
  simp [renderCalls, List.count_cons]

theorem count_advance_runFramesCalls (env : Env) (n : Nat) :
    ∀ w : World, (runFramesCalls env n w).count Call.AdvanceFrameNumber = n := by
  induction n with
  | zero => intro w; rfl
  | succ n ih =>
    intro w
    simp only [runFramesCalls, List.count_append, ih, count_advance_pumpCalls,
      count_advance_updateCalls, count_advance_renderCalls]
    simp [List.count_cons]
    omega

theorem deltaSecondsOf_append (xs ys : List Call) :
    deltaSecondsOf (xs ++ ys) = deltaSecondsOf xs ++ deltaSecondsOf ys := by
  induction xs with
  | nil => rfl
  | cons c xs ih =>
    cases c with
    | Update s dt =>
      cases s <;> simp [deltaSecondsOf, ih]
    | _ => simp [deltaSecondsOf, ih]

theorem deltaSecondsOf_pumpCalls (ms : List Msg) : deltaSecondsOf (pumpCalls ms) = [] := by
  induction ms with
  | nil => rfl
  | cons m ms ih => simp [pumpCalls, deltaSecondsOf, ih]

theorem deltaSecondsOf_replicate (n : Nat) :
    deltaSecondsOf (List.replicate n Call.GetCurrentTimeSeconds) = [] := by
  induction n with
  | zero => rfl
  | succ n ih => simp [List.replicate, deltaSecondsOf, ih]

theorem deltaSecondsOf_updateCalls (n : Nat) (dt : FloatValue) :
    deltaSecondsOf (updateCalls n dt) = [dt] := by
  unfold updateCalls
  rw [deltaSecondsOf_append, deltaSecondsOf_append, deltaSecondsOf_replicate]
  simp [deltaSecondsOf]

theorem deltaSecondsOf_renderCalls : deltaSecondsOf renderCalls = [] := by
  simp [renderCalls, deltaSecondsOf]

theorem deltaSecondsOf_runFramesCalls_succ (env : Env) (n : Nat) (w : World) :
    deltaSecondsOf (runFramesCalls env (n + 1) w) =
      deltaSecondsNext env w :: deltaSecondsOf (runFramesCalls env n (RunFrame env w)) := by
  simp only [runFramesCalls, deltaSecondsOf_append, deltaSecondsOf_pumpCalls,
    deltaSecondsOf_updateCalls, deltaSecondsOf_renderCalls]
  simp [deltaSecondsOf]

/-- Once the static holds the sample of index `b` and `b + 1` samples have been taken, the
frames that follow compute the differences of consecutive samples. -/
theorem deltaSecondsOf_runFramesCalls_started (env : Env) (n : Nat) :
    ∀ (w : World) (b : Nat), w.s_timeLastFrameStarted = some (env.clock b) →
      w.clockReads = b + 1 →
      deltaSecondsOf (runFramesCalls env n w) =
        (List.range n).map
          (fun i => doubleToFloat (doubleSub (env.clock (b + i + 1)) (env.clock (b + i)))) := by
  induction n with
  | zero => intro w b _ _; rfl
  | succ n ih =>
    intro w b hs hc
    rw [deltaSecondsOf_runFramesCalls_succ, List.range_succ_eq_map, List.map_cons, List.map_map]
    have hd : deltaSecondsNext env w =
        doubleToFloat (doubleSub (env.clock (b + 0 + 1)) (env.clock (b + 0))) := by
      simp [deltaSecondsNext, hs, hc]
    have hs2 : (RunFrame env w).s_timeLastFrameStarted = some (env.clock (b + 1)) := by
      rw [RunFrame_static]
      simp [timeNowNext, clockCallsNext, hs, hc]
    have hc2 : (RunFrame env w).clockReads = b + 1 + 1 := by
      rw [RunFrame_clockReads]
      simp [clockCallsNext, hs, hc]
    rw [hd, ih (RunFrame env w) (b + 1) hs2 hc2]
    congr 1
    apply List.map_congr_left
    intro i _
    simp only [Function.comp, Nat.succ_eq_add_one]
    have e1 : b + 1 + i + 1 = b + (i + 1) + 1 := by omega
    have e2 : b + 1 + i = b + (i + 1) := by omega
    rw [e1, e2]

/-- From a state in which the static has yet to be initialised, the frames compute the
differences of consecutive samples, the first one against the initialiser's own sample. -/
theorem deltaSecondsOf_runFramesCalls_fresh (env : Env) (n : Nat) (w : World)
    (hs : w.s_timeLastFrameStarted = none) :
    deltaSecondsOf (runFramesCalls env n w) =
      (List.range n).map
        (fun i => doubleToFloat
          (doubleSub (env.clock (w.clockReads + i + 1)) (env.clock (w.clockReads + i)))) := by
  cases n with
  | zero => rfl
  | succ n =>
    rw [deltaSecondsOf_runFramesCalls_succ, List.range_succ_eq_map, List.map_cons, List.map_map]
    have hd : deltaSecondsNext env w =
        doubleToFloat
          (doubleSub (env.clock (w.clockReads + 0 + 1)) (env.clock (w.clockReads + 0))) := by
      simp [deltaSecondsNext, hs]
    have hs2 : (RunFrame env w).s_timeLastFrameStarted = some (env.clock (w.clockReads + 1)) := by
      rw [RunFrame_static]
      simp [timeNowNext, clockCallsNext, hs]
    have hc2 : (RunFrame env w).clockReads = w.clockReads + 1 + 1 := by
      rw [RunFrame_clockReads]
      simp [clockCallsNext, hs]
    rw [hd, deltaSecondsOf_runFramesCalls_started env n (RunFrame env w) (w.clockReads + 1)
      hs2 hc2]
    congr 1
    apply List.map_congr_left
    intro i _
    simp only [Function.comp, Nat.succ_eq_add_one]
    have e1 : w.clockReads + 1 + i + 1 = w.clockReads + (i + 1) + 1 := by omega
    have e2 : w.clockReads + 1 + i = w.clockReads + (i + 1) := by omega
    rw [e1, e2]

theorem runFrames_static_fresh (env : Env) (n : Nat) (w : World)
    (hs : w.s_timeLastFrameStarted = none) :
    (runFrames env (n + 1) w).s_timeLastFrameStarted = some (env.clock (w.clockReads + n + 1)) ∧
    (runFrames env (n + 1) w).clockReads = w.clockReads + n + 2 := by
  induction n with
  | zero =>
    simp only [runFrames]
    rw [RunFrame_static, RunFrame_clockReads]
    simp [timeNowNext, clockCallsNext, hs]
  | succ n ih =>
    rw [runFrames_succ_right, RunFrame_static, RunFrame_clockReads]
    simp only [timeNowNext, clockCallsNext, ih.1, ih.2]
    constructor
    · congr 2
    · omega

theorem wndProc_frameNumber (w : World) (m : Msg) :
    (WindowsMessageHandlingProcedure w m).1.input.frameNumber = w.input.frameNumber := by
  unfold WindowsMessageHandlingProcedure
  simp only []
  repeat (first
    | rfl
    | apply ite_ind (fun x : World × LResult => x.1.input.frameNumber = w.input.frameNumber))

theorem pumpLoop_frameNumber (ms : List Msg) :
    ∀ w : World, (pumpLoop ms w).input.frameNumber = w.input.frameNumber := by
  induction ms with
  | nil => intro w; rfl
  | cons m ms ih =>
    intro w
    simp only [pumpLoop]
    rw [ih, wndProc_frameNumber]
    rfl

theorem RunFrame_frameNumber (env : Env) (w : World) :
    (RunFrame env w).input.frameNumber = w.input.frameNumber + 1 := by
  simp [RunFrame, Render_eq, Update_eq, log_eq, RunMessagePump, pumpLoop_frameNumber,
    InputSystem.AdvanceFrameNumber]

/-! ## C2: the calls of one frame -/

/-- C2: every `RunFrame` makes exactly this sequence of calls: advance the input frame counter
(which goes up by one), begin the frame span, drain the pending messages, begin the update span,
sample the clock (twice on the very first update, once afterwards) to compute one
`deltaSeconds`, update the input system, the audio system, the console, the diagnostic overlay
and the game layer with that same `deltaSeconds`, end the update span, begin the render span,
render the game layer, the diagnostic overlay and the console, present, end the render span, end
the frame span. -/
theorem RunFrame_call_sequence (env : Env) (w : World) :
    callsSince w (RunFrame env w) =
      [Call.AdvanceFrameNumber, Call.StartTiming ProfilingID.g_frameTimeProfiling] ++
      pumpCalls (env.pending w.pumpRuns) ++
      [Call.StartTiming ProfilingID.g_updateProfiling] ++
      List.replicate (clockCallsNext w) Call.GetCurrentTimeSeconds ++
      [ Call.Update Subsystem.InputSystem (deltaSecondsNext env w),
        Call.Update Subsystem.AudioSystem (deltaSecondsNext env w),
        Call.Update Subsystem.Console (deltaSecondsNext env w),
        Call.Update Subsystem.MemoryOutputWindow (deltaSecondsNext env w),
        Call.Update Subsystem.TheGame (deltaSecondsNext env w),
        Call.EndTiming ProfilingID.g_updateProfiling,
        Call.StartTiming ProfilingID.g_renderProfiling,
        Call.Render Subsystem.TheGame,
        Call.Render Subsystem.MemoryOutputWindow,
        Call.Render Subsystem.Console,
        Call.SwapBuffers,
        Call.EndTiming ProfilingID.g_renderProfiling,
        Call.EndTiming ProfilingID.g_frameTimeProfiling ] ∧
    (clockCallsNext w = 1 ∨ clockCallsNext w = 2) ∧
    (RunFrame env w).input.frameNumber = w.input.frameNumber + 1 ∧
    (RunFrame env w).pumpRuns = w.pumpRuns + 1 := by
  refine ⟨?_, ?_, RunFrame_frameNumber env w, RunFrame_pumpRuns env w⟩
  · apply callsSince_append
    rw [RunFrame_trace]
    simp [updateCalls, renderCalls, List.append_assoc]
  · unfold clockCallsNext
    cases w.s_timeLastFrameStarted <;> simp

/-! ## C3: `deltaSeconds` -/

theorem Initialize_clockReads (env : Env) (w : World) :
    (Initialize env w).clockReads = w.clockReads := by
  simp [Initialize, CreateOpenGLWindow, newInstance, log, logAll]

theorem Initialize_static (env : Env) (w : World) :
    (Initialize env w).s_timeLastFrameStarted = w.s_timeLastFrameStarted := by
  simp [Initialize, CreateOpenGLWindow, newInstance, log, logAll]

/-- The `deltaSeconds` values of the first `N` frames after the static is first reached. -/
theorem deltaSecondsOf_runFrames_fresh (env : Env) (w : World) (N : Nat)
    (hs : w.s_timeLastFrameStarted = none) (hc : w.clockReads = 0) :
    deltaSecondsOf (callsSince w (runFrames env N w)) =
      (List.range N).map
        (fun i => doubleToFloat (doubleSub (env.clock (i + 1)) (env.clock i))) := by
  rw [callsSince_append w _ _ (runFrames_trace env N w),
    deltaSecondsOf_runFramesCalls_fresh env N w hs, hc]
  simp

/-- C3 (as amended): from a state in which the static of `Update` has yet to be initialised and
no clock sample has been taken (the state `Initialize` leaves, since it samples no clock), the
`deltaSeconds` computed on iteration `N` (counting from 1) is the sample taken on iteration `N`
minus the stored last-frame time, which is the sample taken on iteration `N - 1`, the
difference being computed in `double` and narrowed to `float`; the stored time is then the
sample of iteration `N`; on the first iteration the value is the second sample minus the first,
both taken inside that first `Update`, the first by the initialiser of the static, not a
constant; and with a non-decreasing clock every `deltaSeconds` is at least 0. -/
theorem deltaSeconds_is_rounded_difference_of_consecutive_samples (env : Env) (w : World)
    (N : Nat) (hs : w.s_timeLastFrameStarted = none) (hc : w.clockReads = 0) :
    deltaSecondsOf (callsSince w (runFrames env N w)) =
      (List.range N).map
        (fun i => doubleToFloat (doubleSub (env.clock (i + 1)) (env.clock i))) ∧
    (∀ n, n < N →
      (runFrames env (n + 1) w).s_timeLastFrameStarted = some (env.clock (n + 1)) ∧
      (runFrames env (n + 1) w).clockReads = n + 2) ∧
    (0 < N →
      (deltaSecondsOf (callsSince w (runFrames env N w))).head? =
        some (doubleToFloat (doubleSub (env.clock 1) (env.clock 0)))) ∧
    (∀ v : World, ( Initialize env v).clockReads = v.clockReads ∧
      ( Initialize env v).s_timeLastFrameStarted = v.s_timeLastFrameStarted) ∧
    (Monotone env.clock →
      ∀ d ∈ deltaSecondsOf (callsSince w (runFrames env N w)), d.nonneg) := by
  have main := deltaSecondsOf_runFrames_fresh env w N hs hc
  refine ⟨main, ?_, ?_, ?_, ?_⟩
  · intro n _
    have h := runFrames_static_fresh env n w hs
    rw [hc] at h
    simpa using h
  · intro hN
    rw [main]
    obtain ⟨k, rfl⟩ : ∃ k, N = k + 1 := ⟨N - 1, by omega⟩
    rw [List.range_succ_eq_map]
    rfl
  · intro v
    exact ⟨Initialize_clockReads env v, Initialize_static env v⟩
  · intro hmono d hd
    rw [main] at hd
    obtain ⟨i, _, rfl⟩ := List.mem_map.mp hd
    exact doubleToFloat_nonneg _ (doubleSub_nonneg _ _ (hmono (Nat.le_succ i)))

/-- C3, instance: three frames from the state `Initialize` leaves, under the sample
environment. -/
theorem deltaSeconds_is_rounded_difference_of_consecutive_samples_witness :
    deltaSecondsOf
        (callsSince
          ( Initialize Env.sample (log Call.MemoryAnalyticsStartup
            (World.initial InputSystem.idle)))
          (runFrames Env.sample 3
            ( Initialize Env.sample (log Call.MemoryAnalyticsStartup
              (World.initial InputSystem.idle))))) =
      (List.range 3).map
        (fun i => doubleToFloat (doubleSub (Env.sample.clock (i + 1)) (Env.sample.clock i))) :=
  (deltaSeconds_is_rounded_difference_of_consecutive_samples Env.sample
    ( Initialize Env.sample (log Call.MemoryAnalyticsStartup (World.initial InputSystem.idle)))
    3 rfl rfl).1

/-- C3, as worded, fails: with a clock that reads `0.0` at its first sample and `16777217.0` at
its second, the first iteration after `Initialize` hands `16777216.0f` to the game layer, not
the difference `16777217` of the two samples; and `Initialize` has taken no sample, both being
taken inside that first iteration. -/
theorem deltaSeconds_differs_from_sample_difference :
    deltaSecondsOf
        (callsSince
          ( Initialize Env.late (log Call.MemoryAnalyticsStartup
            (World.initial InputSystem.idle)))
          (RunFrame Env.late
            ( Initialize Env.late (log Call.MemoryAnalyticsStartup
              (World.initial InputSystem.idle))))) =
      [FloatValue.finite 16777216] ∧
    Env.late.clock 1 - Env.late.clock 0 = 16777217 ∧
    FloatValue.finite 16777216 ≠ FloatValue.finite (Env.late.clock 1 - Env.late.clock 0) ∧
    ( Initialize Env.late (log Call.MemoryAnalyticsStartup
      (World.initial InputSystem.idle))).clockReads = 0 ∧
    (RunFrame Env.late
      ( Initialize Env.late (log Call.MemoryAnalyticsStartup
        (World.initial InputSystem.idle)))).clockReads = 2 := by
  have hd : Env.late.clock 1 - Env.late.clock 0 = 16777217 := by
    simp [Env.late]
  refine ⟨?_, hd, ?_, rfl, ?_⟩
  · have h := deltaSecondsOf_runFrames_fresh Env.late
      ( Initialize Env.late (log Call.MemoryAnalyticsStartup (World.initial InputSystem.idle)))
      1 rfl rfl
    have e0 : Env.late.clock 0 = 0 := by simp [Env.late]
    have e1 : Env.late.clock (0 + 1) = 16777217 := by simp [Env.late]
    have hr : List.range 1 = [0] := rfl
    rw [hr] at h
    simp only [List.map_cons, List.map_nil, e0, e1, doubleSub_16777217,
      doubleToFloat_16777217] at h
    exact h
  · rw [hd]
    intro e
    have e2 : (16777216 : ℚ) = 16777217 := FloatValue.finite.inj e
    norm_num at e2
  · rw [RunFrame_clockReads]
    rfl

theorem Initialize_quit (env : Env) (w : World) :
    (Initialize env w).g_isQuitting = w.g_isQuitting := by
  simp [Initialize, CreateOpenGLWindow, newInstance, log, logAll]

theorem Initialize_pumpRuns (env : Env) (w : World) :
    (Initialize env w).pumpRuns = w.pumpRuns := by
  simp [Initialize, CreateOpenGLWindow, newInstance, log, logAll]

/-- `WinMain` returns 0 once the loop, started after `Initialize`, has stopped. -/
theorem WinMain_runs (env : Env) (w : World) (k fuel : Nat)
    (hw : w.g_isQuitting = false)
    (hbefore : ∀ i < k, ∀ m ∈ env.pending (w.pumpRuns + i), ¬ isQuitEvent m)
    (hk : ∃ m ∈ env.pending (w.pumpRuns + k), isQuitEvent m)
    (hfuel : k < fuel) :
    WinMain env fuel w =
      some (log Call.MemoryAnalyticsShutdown (Shutdown (RunFrame env
        (runFrames env k ( Initialize env (log Call.MemoryAnalyticsStartup w))))), 0) := by
  have h := mainLoop_runs env k fuel ( Initialize env (log Call.MemoryAnalyticsStartup w))
    (by rw [Initialize_quit]; exact hw)
    (by rw [Initialize_pumpRuns]; exact hbefore)
    (by rw [Initialize_pumpRuns]; exact hk) hfuel
  unfold WinMain
  simp only [h, runFrames_succ_right]

/-! ## C7: the iteration in which the quit flag is raised runs to its end -/

/-- C7: let the quit flag be clear, let the messages drained in the first `k` iterations hold no
quit event and let those drained in the next iteration (iteration `k`, counting from 0) hold
one. Then, given more than `k` units of fuel, the main loop terminates; it has run iterations
`0 .. k` and no more (`k + 1` frame-counter advances); and iteration `k`, started with the flag
clear, has made every call of its update phase and of its render phase, present included, after
the drain that raised the flag. The same holds of the loop inside `WinMain`, which then shuts
down and returns 0. -/
theorem quit_during_drain_finishes_iteration (env : Env) (w : World) (k fuel : Nat)
    (hw : w.g_isQuitting = false)
    (hbefore : ∀ i < k, ∀ m ∈ env.pending (w.pumpRuns + i), ¬ isQuitEvent m)
    (hk : ∃ m ∈ env.pending (w.pumpRuns + k), isQuitEvent m)
    (hfuel : k < fuel) :
    (runFrames env k w).g_isQuitting = false ∧
    mainLoop env fuel w = some (RunFrame env (runFrames env k w)) ∧
    (RunFrame env (runFrames env k w)).g_isQuitting = true ∧
    (RunFrame env (runFrames env k w)).trace =
      (runFrames env k w).trace ++
      [Call.AdvanceFrameNumber, Call.StartTiming ProfilingID.g_frameTimeProfiling] ++
      pumpCalls (env.pending (w.pumpRuns + k)) ++
      [Call.StartTiming ProfilingID.g_updateProfiling] ++
      List.replicate (clockCallsNext (runFrames env k w)) Call.GetCurrentTimeSeconds ++
      [ Call.Update Subsystem.InputSystem (deltaSecondsNext env (runFrames env k w)),
        Call.Update Subsystem.AudioSystem (deltaSecondsNext env (runFrames env k w)),
        Call.Update Subsystem.Console (deltaSecondsNext env (runFrames env k w)),
        Call.Update Subsystem.MemoryOutputWindow (deltaSecondsNext env (runFrames env k w)),
        Call.Update Subsystem.TheGame (deltaSecondsNext env (runFrames env k w)),
        Call.EndTiming ProfilingID.g_updateProfiling,
        Call.StartTiming ProfilingID.g_renderProfiling,
        Call.Render Subsystem.TheGame,
        Call.Render Subsystem.MemoryOutputWindow,
        Call.Render Subsystem.Console,
        Call.SwapBuffers,
        Call.EndTiming ProfilingID.g_renderProfiling,
        Call.EndTiming ProfilingID.g_frameTimeProfiling ] ∧
    (callsSince w (RunFrame env (runFrames env k w))).count Call.AdvanceFrameNumber = k + 1 ∧
    WinMain env fuel w =
      some (log Call.MemoryAnalyticsShutdown (Shutdown (RunFrame env
        (runFrames env k ( Initialize env (log Call.MemoryAnalyticsStartup w))))), 0) := by
  have hnq := runFrames_not_quitting env k w hw hbefore
  refine ⟨hnq, ?_, ?_, ?_, ?_, WinMain_runs env w k fuel hw hbefore hk hfuel⟩
  · rw [mainLoop_runs env k fuel w hw hbefore hk hfuel, runFrames_succ_right]
  · apply (RunFrame_quit_iff env _).mpr
    right
    rw [runFrames_pumpRuns]
    exact hk
  · rw [RunFrame_trace, runFrames_pumpRuns]
    simp [updateCalls, renderCalls, List.append_assoc]
  · rw [← runFrames_succ_right,
      callsSince_append w _ _ (runFrames_trace env (k + 1) w),
      count_advance_runFramesCalls]

/-- C7, instance: under the sample environment the close event arrives in the third drain
(`k = 2`); with five units of fuel the loop stops after that iteration. -/
theorem quit_during_drain_finishes_iteration_witness :
    mainLoop Env.sample 5 (World.initial InputSystem.idle) =
      some (RunFrame Env.sample (runFrames Env.sample 2 (World.initial InputSystem.idle))) ∧
    (callsSince (World.initial InputSystem.idle)
      (RunFrame Env.sample (runFrames Env.sample 2 (World.initial InputSystem.idle)))).count
        Call.AdvanceFrameNumber = 3 :=
  have h := quit_during_drain_finishes_iteration Env.sample (World.initial InputSystem.idle) 2 5
    rfl (by decide) (by decide) (by decide)
  ⟨h.2.1, h.2.2.2.2.1⟩

/-! ## Startup and shutdown -/

/-- The calls of `Initialize`. -/
theorem Initialize_trace (env : Env) (w : World) :
    (Initialize env w).trace =
      w.trace ++ (Call.SetProcessDPIAware :: createOpenGLWindowCalls ++
        [ Call.InitializeCriticalSection CriticalSection.g_chunkListsCriticalSection,
          Call.InitializeCriticalSection CriticalSection.g_diskIOCriticalSection,
          Call.New Subsystem.Renderer CtorArgs.none,
          Call.New Subsystem.AudioSystem CtorArgs.none,
          Call.New Subsystem.InputSystem (CtorArgs.windowHandle env.hWnd),
          Call.New Subsystem.Console CtorArgs.none,
          Call.New Subsystem.MemoryOutputWindow CtorArgs.none,
          Call.New Subsystem.TheApp (CtorArgs.viewSize VIEW_RIGHT VIEW_TOP),
          Call.New Subsystem.TheGame CtorArgs.none,
          Call.RegisterProfilingChannel ProfilingID.g_frameTimeProfiling,
          Call.RegisterProfilingChannel ProfilingID.g_updateProfiling,
          Call.RegisterProfilingChannel ProfilingID.g_renderProfiling ]) := by
  simp [Initialize, CreateOpenGLWindow, newInstance, log, logAll, List.append_assoc]

/-- The calls of `Shutdown`. -/
theorem Shutdown_trace (w : World) :
    (Shutdown w).trace =
      w.trace ++
        [ Call.SetOrtho (Vector2.mk 0 0) (Vector2.mk 1600 900),
          Call.EnableAlphaBlending,
          Call.DrawText2D (Vector2.mk 500 400) "Saving and closing...",
          Call.SwapBuffers,
          Call.Delete Subsystem.TheGame, Call.SetNull Subsystem.TheGame,
          Call.Delete Subsystem.TheApp, Call.SetNull Subsystem.TheApp,
          Call.Delete Subsystem.MemoryOutputWindow, Call.SetNull Subsystem.MemoryOutputWindow,
          Call.Delete Subsystem.Console, Call.SetNull Subsystem.Console,
          Call.Delete Subsystem.InputSystem, Call.SetNull Subsystem.InputSystem,
          Call.Delete Subsystem.AudioSystem, Call.SetNull Subsystem.AudioSystem,
          Call.Delete Subsystem.Renderer, Call.SetNull Subsystem.Renderer,
          Call.CleanUpTextureRegistry,
          Call.CleanUpBitmapFontRegistry,
          Call.CleanUpProfilingUtils,
          Call.DeleteCriticalSection CriticalSection.g_chunkListsCriticalSection,
          Call.DeleteCriticalSection CriticalSection.g_diskIOCriticalSection ] := by
  simp [Shutdown, EngineCleanup, deleteInstance, log, List.append_assoc]

theorem Initialize_hasInstance (env : Env) (w : World) (s : Subsystem) :
    (Initialize env w).hasInstance s = true := by
  cases s <;> simp [Initialize, CreateOpenGLWindow, newInstance, log, logAll]

theorem Shutdown_hasInstance (w : World) (s : Subsystem) :
    (Shutdown w).hasInstance s = false := by
  cases s <;> simp [Shutdown, EngineCleanup, deleteInstance, log]

/-! ## C4: startup order -/

/-- C4 (as amended): `Initialize` makes exactly these calls, in this order: it marks the process
DPI-aware, creates the surface and rendering context, then the two guards (chunk-list, then
disk-I/O), then constructs the renderer, the audio system, the input system (bound to the
surface's window handle), the console, the diagnostic overlay, the application layer, the game
layer, and finally registers the three profiling channels (frame, update, render); afterwards
every subsystem handle is set and `g_hWnd` is the surface's window handle. -/
theorem Initialize_call_sequence (env : Env) (w : World) :
    callsSince w (Initialize env w) =
      Call.SetProcessDPIAware :: createOpenGLWindowCalls ++
        [ Call.InitializeCriticalSection CriticalSection.g_chunkListsCriticalSection,
          Call.InitializeCriticalSection CriticalSection.g_diskIOCriticalSection,
          Call.New Subsystem.Renderer CtorArgs.none,
          Call.New Subsystem.AudioSystem CtorArgs.none,
          Call.New Subsystem.InputSystem (CtorArgs.windowHandle env.hWnd),
          Call.New Subsystem.Console CtorArgs.none,
          Call.New Subsystem.MemoryOutputWindow CtorArgs.none,
          Call.New Subsystem.TheApp (CtorArgs.viewSize VIEW_RIGHT VIEW_TOP),
          Call.New Subsystem.TheGame CtorArgs.none,
          Call.RegisterProfilingChannel ProfilingID.g_frameTimeProfiling,
          Call.RegisterProfilingChannel ProfilingID.g_updateProfiling,
          Call.RegisterProfilingChannel ProfilingID.g_renderProfiling ] ∧
    (Initialize env w).g_hWnd = env.hWnd ∧
    (∀ s : Subsystem, (Initialize env w).hasInstance s = true) :=
  ⟨callsSince_append w _ _ (Initialize_trace env w),
    by simp [Initialize, CreateOpenGLWindow, newInstance, log, logAll],
    Initialize_hasInstance env w⟩

/-- C4, as worded, fails: in the calls of `Initialize` from the initial state the surface and
rendering context are complete (`CreateWindowEx` at position 8, `wglMakeCurrent` at position 18)
before the first guard is created (positions 19 and 20), not after. -/
theorem guards_are_created_after_the_surface :
    (callsSince (World.initial InputSystem.idle)
      (Initialize Env.sample (World.initial InputSystem.idle))).indexOf
        (Call.Win32 Win32Call.CreateWindowEx) = 8 ∧
    (callsSince (World.initial InputSystem.idle)
      (Initialize Env.sample (World.initial InputSystem.idle))).indexOf
        (Call.Win32 Win32Call.wglMakeCurrent) = 18 ∧
    (callsSince (World.initial InputSystem.idle)
      (Initialize Env.sample (World.initial InputSystem.idle))).indexOf
        (Call.InitializeCriticalSection CriticalSection.g_chunkListsCriticalSection) = 19 ∧
    (callsSince (World.initial InputSystem.idle)
      (Initialize Env.sample (World.initial InputSystem.idle))).indexOf
        (Call.InitializeCriticalSection CriticalSection.g_diskIOCriticalSection) = 20 := by
  rw [callsSince_append _ _ _ (Initialize_trace Env.sample (World.initial InputSystem.idle))]
  simp [createOpenGLWindowCalls, List.indexOf_cons]

/-! ## C5: shutdown order -/

/-- C5: `Shutdown` makes exactly these calls, in this order: it draws the closing notice with
the renderer and presents it; it deletes the game layer, the application layer, the diagnostic
overlay, the console, the input system, the audio system and the renderer, nulling each handle
right after its `delete`; it releases the texture registry, the font registry and the profiling
resources; last it deletes the chunk-list guard and the disk-I/O guard. No call uses a subsystem
after that subsystem's `delete`, and afterwards no subsystem handle is set. -/
theorem Shutdown_call_sequence (w : World) :
    callsSince w (Shutdown w) =
      [ Call.SetOrtho (Vector2.mk 0 0) (Vector2.mk 1600 900),
        Call.EnableAlphaBlending,
        Call.DrawText2D (Vector2.mk 500 400) "Saving and closing...",
        Call.SwapBuffers,
        Call.Delete Subsystem.TheGame, Call.SetNull Subsystem.TheGame,
        Call.Delete Subsystem.TheApp, Call.SetNull Subsystem.TheApp,
        Call.Delete Subsystem.MemoryOutputWindow, Call.SetNull Subsystem.MemoryOutputWindow,
        Call.Delete Subsystem.Console, Call.SetNull Subsystem.Console,
        Call.Delete Subsystem.InputSystem, Call.SetNull Subsystem.InputSystem,
        Call.Delete Subsystem.AudioSystem, Call.SetNull Subsystem.AudioSystem,
        Call.Delete Subsystem.Renderer, Call.SetNull Subsystem.Renderer,
        Call.CleanUpTextureRegistry,
        Call.CleanUpBitmapFontRegistry,
        Call.CleanUpProfilingUtils,
        Call.DeleteCriticalSection CriticalSection.g_chunkListsCriticalSection,
        Call.DeleteCriticalSection CriticalSection.g_diskIOCriticalSection ] ∧
    noUseAfterDelete (callsSince w (Shutdown w)) = true ∧
    (∀ s : Subsystem, (Shutdown w).hasInstance s = false) := by
  have h := callsSince_append w _ _ (Shutdown_trace w)
  refine ⟨h, ?_, Shutdown_hasInstance w⟩
  rw [h]
  simp [noUseAfterDelete, Call.uses]

/-! ## C6: destruction mirrors construction -/

/-- C6: the subsystems are constructed by `Initialize` in the order renderer, audio, input,
console, diagnostic overlay, application layer, game layer, and destroyed by `Shutdown` in
exactly the reverse order. -/
theorem destruction_order_is_reverse_of_construction (env : Env) (w v : World) :
    constructionOrder (callsSince w (Initialize env w)) =
      [ Subsystem.Renderer, Subsystem.AudioSystem, Subsystem.InputSystem, Subsystem.Console,
        Subsystem.MemoryOutputWindow, Subsystem.TheApp, Subsystem.TheGame ] ∧
    destructionOrder (callsSince v (Shutdown v)) =
      [ Subsystem.TheGame, Subsystem.TheApp, Subsystem.MemoryOutputWindow, Subsystem.Console,
        Subsystem.InputSystem, Subsystem.AudioSystem, Subsystem.Renderer ] ∧
    destructionOrder (callsSince v (Shutdown v)) =
      (constructionOrder (callsSince w (Initialize env w))).reverse := by
  rw [callsSince_append w _ _ (Initialize_trace env w),
    callsSince_append v _ _ (Shutdown_trace v)]
  refine ⟨?_, ?_, ?_⟩ <;>
    simp [constructionOrder, destructionOrder, createOpenGLWindowCalls]

end CloudyCraft
